import Mathlib

/-!
# api-tareas: the in-memory task store and its request handlers

A shallow embedding of `src/app.js`.  The process state is the pair
`(tareas, nextId)`; every Express route handler becomes a function from the
state and the request's data to the new state and the response.

Conventions of the embedding:

* JavaScript values that can occur in a parsed JSON body are values of `JsVal`;
  `JsVal.undefined` is what reading an absent property gives.
* Numbers: ids and `nextId` are integers (`Int`); the result of
  `parseInt(req.params.id)` is an `Option Int`, `none` standing for `NaN`.
  The 2^53 precision limit of JavaScript numbers is out of scope.
* A handler that throws (a `TypeError` from calling `toLowerCase` on something
  that is not a string) is answered by Express with status 500; the response
  payload is then `Payload.fallo`.
* `req.body` is an object: a field that the body does not carry reads as
  `undefined`.
* Strings are sequences of Unicode code points; `toLowerCase` is the conversion of the
  Unicode Character Database, given by the tables below.
-/

namespace ApiTareas

/-! ## JavaScript values -/

/-- JavaScript values reachable from a parsed JSON document, plus `undefined`.
A number is kept as the rational it denotes (every finite double is one); the handlers
only ever test a number for being zero. -/
inductive JsVal where
  | undefined
  | null
  | bool (b : Bool)
  | num (q : Rat)
  | str (s : String)
  | arr (xs : List JsVal)
  | obj (kvs : List (String × JsVal))

/-- JavaScript truthiness (`ToBoolean`): `undefined`, `null`, `false`, `0` and `""`
are falsy, everything else (arrays and objects included) is truthy. -/
def truthy : JsVal → Bool
  | .undefined => false
  | .null => false
  | .bool b => b
  | .num q => decide (q ≠ 0)
  | .str s => decide (s ≠ "")
  | .arr _ => true
  | .obj _ => true

/-- The JavaScript expression `a || b`. -/
def orElse (a b : JsVal) : JsVal :=
  if truthy a then a else b

/-- The simple lower-case mappings of the Unicode Character Database (version 14.0), as
runs `(first, last, step, image)` in increasing order: the code points `first`,
`first + step`, ..., `last` are mapped to `image`, `image + step`, ...; a code point in no
run is its own lower case. -/
def lowerRuns : List (Nat × Nat × Nat × Nat) :=
  [(0x41, 0x5A, 1, 0x61), (0xC0, 0xD6, 1, 0xE0), (0xD8, 0xDE, 1, 0xF8), (0x100, 0x12E, 2, 0x101),
   (0x130, 0x130, 1, 0x69), (0x132, 0x136, 2, 0x133), (0x139, 0x147, 2, 0x13A),
   (0x14A, 0x176, 2, 0x14B), (0x178, 0x178, 1, 0xFF), (0x179, 0x17D, 2, 0x17A),
   (0x181, 0x181, 1, 0x253), (0x182, 0x184, 2, 0x183), (0x186, 0x186, 1, 0x254),
   (0x187, 0x187, 1, 0x188), (0x189, 0x18A, 1, 0x256), (0x18B, 0x18B, 1, 0x18C),
   (0x18E, 0x18E, 1, 0x1DD), (0x18F, 0x18F, 1, 0x259), (0x190, 0x190, 1, 0x25B),
   (0x191, 0x191, 1, 0x192), (0x193, 0x193, 1, 0x260), (0x194, 0x194, 1, 0x263),
   (0x196, 0x196, 1, 0x269), (0x197, 0x197, 1, 0x268), (0x198, 0x198, 1, 0x199),
   (0x19C, 0x19C, 1, 0x26F), (0x19D, 0x19D, 1, 0x272), (0x19F, 0x19F, 1, 0x275),
   (0x1A0, 0x1A4, 2, 0x1A1), (0x1A6, 0x1A6, 1, 0x280), (0x1A7, 0x1A7, 1, 0x1A8),
   (0x1A9, 0x1A9, 1, 0x283), (0x1AC, 0x1AC, 1, 0x1AD), (0x1AE, 0x1AE, 1, 0x288),
   (0x1AF, 0x1AF, 1, 0x1B0), (0x1B1, 0x1B2, 1, 0x28A), (0x1B3, 0x1B5, 2, 0x1B4),
   (0x1B7, 0x1B7, 1, 0x292), (0x1B8, 0x1B8, 1, 0x1B9), (0x1BC, 0x1BC, 1, 0x1BD),
   (0x1C4, 0x1C4, 1, 0x1C6), (0x1C5, 0x1C5, 1, 0x1C6), (0x1C7, 0x1C7, 1, 0x1C9),
   (0x1C8, 0x1C8, 1, 0x1C9), (0x1CA, 0x1CA, 1, 0x1CC), (0x1CB, 0x1DB, 2, 0x1CC),
   (0x1DE, 0x1EE, 2, 0x1DF), (0x1F1, 0x1F1, 1, 0x1F3), (0x1F2, 0x1F4, 2, 0x1F3),
   (0x1F6, 0x1F6, 1, 0x195), (0x1F7, 0x1F7, 1, 0x1BF), (0x1F8, 0x21E, 2, 0x1F9),
   (0x220, 0x220, 1, 0x19E), (0x222, 0x232, 2, 0x223), (0x23A, 0x23A, 1, 0x2C65),
   (0x23B, 0x23B, 1, 0x23C), (0x23D, 0x23D, 1, 0x19A), (0x23E, 0x23E, 1, 0x2C66),
   (0x241, 0x241, 1, 0x242), (0x243, 0x243, 1, 0x180), (0x244, 0x244, 1, 0x289),
   (0x245, 0x245, 1, 0x28C), (0x246, 0x24E, 2, 0x247), (0x370, 0x372, 2, 0x371),
   (0x376, 0x376, 1, 0x377), (0x37F, 0x37F, 1, 0x3F3), (0x386, 0x386, 1, 0x3AC),
   (0x388, 0x38A, 1, 0x3AD), (0x38C, 0x38C, 1, 0x3CC), (0x38E, 0x38F, 1, 0x3CD),
   (0x391, 0x3A1, 1, 0x3B1), (0x3A3, 0x3AB, 1, 0x3C3), (0x3CF, 0x3CF, 1, 0x3D7),
   (0x3D8, 0x3EE, 2, 0x3D9), (0x3F4, 0x3F4, 1, 0x3B8), (0x3F7, 0x3F7, 1, 0x3F8),
   (0x3F9, 0x3F9, 1, 0x3F2), (0x3FA, 0x3FA, 1, 0x3FB), (0x3FD, 0x3FF, 1, 0x37B),
   (0x400, 0x40F, 1, 0x450), (0x410, 0x42F, 1, 0x430), (0x460, 0x480, 2, 0x461),
   (0x48A, 0x4BE, 2, 0x48B), (0x4C0, 0x4C0, 1, 0x4CF), (0x4C1, 0x4CD, 2, 0x4C2),
   (0x4D0, 0x52E, 2, 0x4D1), (0x531, 0x556, 1, 0x561), (0x10A0, 0x10C5, 1, 0x2D00),
   (0x10C7, 0x10C7, 1, 0x2D27), (0x10CD, 0x10CD, 1, 0x2D2D), (0x13A0, 0x13EF, 1, 0xAB70),
   (0x13F0, 0x13F5, 1, 0x13F8), (0x1C90, 0x1CBA, 1, 0x10D0), (0x1CBD, 0x1CBF, 1, 0x10FD),
   (0x1E00, 0x1E94, 2, 0x1E01), (0x1E9E, 0x1E9E, 1, 0xDF), (0x1EA0, 0x1EFE, 2, 0x1EA1),
   (0x1F08, 0x1F0F, 1, 0x1F00), (0x1F18, 0x1F1D, 1, 0x1F10), (0x1F28, 0x1F2F, 1, 0x1F20),
   (0x1F38, 0x1F3F, 1, 0x1F30), (0x1F48, 0x1F4D, 1, 0x1F40), (0x1F59, 0x1F5F, 2, 0x1F51),
   (0x1F68, 0x1F6F, 1, 0x1F60), (0x1F88, 0x1F8F, 1, 0x1F80), (0x1F98, 0x1F9F, 1, 0x1F90),
   (0x1FA8, 0x1FAF, 1, 0x1FA0), (0x1FB8, 0x1FB9, 1, 0x1FB0), (0x1FBA, 0x1FBB, 1, 0x1F70),
   (0x1FBC, 0x1FBC, 1, 0x1FB3), (0x1FC8, 0x1FCB, 1, 0x1F72), (0x1FCC, 0x1FCC, 1, 0x1FC3),
   (0x1FD8, 0x1FD9, 1, 0x1FD0), (0x1FDA, 0x1FDB, 1, 0x1F76), (0x1FE8, 0x1FE9, 1, 0x1FE0),
   (0x1FEA, 0x1FEB, 1, 0x1F7A), (0x1FEC, 0x1FEC, 1, 0x1FE5), (0x1FF8, 0x1FF9, 1, 0x1F78),
   (0x1FFA, 0x1FFB, 1, 0x1F7C), (0x1FFC, 0x1FFC, 1, 0x1FF3), (0x2126, 0x2126, 1, 0x3C9),
   (0x212A, 0x212A, 1, 0x6B), (0x212B, 0x212B, 1, 0xE5), (0x2132, 0x2132, 1, 0x214E),
   (0x2160, 0x216F, 1, 0x2170), (0x2183, 0x2183, 1, 0x2184), (0x24B6, 0x24CF, 1, 0x24D0),
   (0x2C00, 0x2C2F, 1, 0x2C30), (0x2C60, 0x2C60, 1, 0x2C61), (0x2C62, 0x2C62, 1, 0x26B),
   (0x2C63, 0x2C63, 1, 0x1D7D), (0x2C64, 0x2C64, 1, 0x27D), (0x2C67, 0x2C6B, 2, 0x2C68),
   (0x2C6D, 0x2C6D, 1, 0x251), (0x2C6E, 0x2C6E, 1, 0x271), (0x2C6F, 0x2C6F, 1, 0x250),
   (0x2C70, 0x2C70, 1, 0x252), (0x2C72, 0x2C72, 1, 0x2C73), (0x2C75, 0x2C75, 1, 0x2C76),
   (0x2C7E, 0x2C7F, 1, 0x23F), (0x2C80, 0x2CE2, 2, 0x2C81), (0x2CEB, 0x2CED, 2, 0x2CEC),
   (0x2CF2, 0x2CF2, 1, 0x2CF3), (0xA640, 0xA66C, 2, 0xA641), (0xA680, 0xA69A, 2, 0xA681),
   (0xA722, 0xA72E, 2, 0xA723), (0xA732, 0xA76E, 2, 0xA733), (0xA779, 0xA77B, 2, 0xA77A),
   (0xA77D, 0xA77D, 1, 0x1D79), (0xA77E, 0xA786, 2, 0xA77F), (0xA78B, 0xA78B, 1, 0xA78C),
   (0xA78D, 0xA78D, 1, 0x265), (0xA790, 0xA792, 2, 0xA791), (0xA796, 0xA7A8, 2, 0xA797),
   (0xA7AA, 0xA7AA, 1, 0x266), (0xA7AB, 0xA7AB, 1, 0x25C), (0xA7AC, 0xA7AC, 1, 0x261),
   (0xA7AD, 0xA7AD, 1, 0x26C), (0xA7AE, 0xA7AE, 1, 0x26A), (0xA7B0, 0xA7B0, 1, 0x29E),
   (0xA7B1, 0xA7B1, 1, 0x287), (0xA7B2, 0xA7B2, 1, 0x29D), (0xA7B3, 0xA7B3, 1, 0xAB53),
   (0xA7B4, 0xA7C2, 2, 0xA7B5), (0xA7C4, 0xA7C4, 1, 0xA794), (0xA7C5, 0xA7C5, 1, 0x282),
   (0xA7C6, 0xA7C6, 1, 0x1D8E), (0xA7C7, 0xA7C9, 2, 0xA7C8), (0xA7D0, 0xA7D0, 1, 0xA7D1),
   (0xA7D6, 0xA7D8, 2, 0xA7D7), (0xA7F5, 0xA7F5, 1, 0xA7F6), (0xFF21, 0xFF3A, 1, 0xFF41),
   (0x10400, 0x10427, 1, 0x10428), (0x104B0, 0x104D3, 1, 0x104D8), (0x10570, 0x1057A, 1, 0x10597),
   (0x1057C, 0x1058A, 1, 0x105A3), (0x1058C, 0x10592, 1, 0x105B3), (0x10594, 0x10595, 1, 0x105BB),
   (0x10C80, 0x10CB2, 1, 0x10CC0), (0x118A0, 0x118BF, 1, 0x118C0), (0x16E40, 0x16E5F, 1, 0x16E60),
   (0x1E900, 0x1E921, 1, 0x1E922)]

/-- The code points with the Unicode property `Cased`, as ranges `(first, last)` in
increasing order. -/
def casedRanges : List (Nat × Nat) :=
  [(0x41, 0x5A), (0x61, 0x7A), (0xAA, 0xAA), (0xB5, 0xB5), (0xBA, 0xBA), (0xC0, 0xD6),
   (0xD8, 0xF6), (0xF8, 0x1BA), (0x1BC, 0x1BF), (0x1C4, 0x293), (0x295, 0x2B8), (0x2C0, 0x2C1),
   (0x2E0, 0x2E4), (0x345, 0x345), (0x370, 0x373), (0x376, 0x377), (0x37A, 0x37D), (0x37F, 0x37F),
   (0x386, 0x386), (0x388, 0x38A), (0x38C, 0x38C), (0x38E, 0x3A1), (0x3A3, 0x3F5), (0x3F7, 0x481),
   (0x48A, 0x52F), (0x531, 0x556), (0x560, 0x588), (0x10A0, 0x10C5), (0x10C7, 0x10C7),
   (0x10CD, 0x10CD), (0x10D0, 0x10FA), (0x10FD, 0x10FF), (0x13A0, 0x13F5), (0x13F8, 0x13FD),
   (0x1C80, 0x1C88), (0x1C90, 0x1CBA), (0x1CBD, 0x1CBF), (0x1D00, 0x1DBF), (0x1E00, 0x1F15),
   (0x1F18, 0x1F1D), (0x1F20, 0x1F45), (0x1F48, 0x1F4D), (0x1F50, 0x1F57), (0x1F59, 0x1F59),
   (0x1F5B, 0x1F5B), (0x1F5D, 0x1F5D), (0x1F5F, 0x1F7D), (0x1F80, 0x1FB4), (0x1FB6, 0x1FBC),
   (0x1FBE, 0x1FBE), (0x1FC2, 0x1FC4), (0x1FC6, 0x1FCC), (0x1FD0, 0x1FD3), (0x1FD6, 0x1FDB),
   (0x1FE0, 0x1FEC), (0x1FF2, 0x1FF4), (0x1FF6, 0x1FFC), (0x2071, 0x2071), (0x207F, 0x207F),
   (0x2090, 0x209C), (0x2102, 0x2102), (0x2107, 0x2107), (0x210A, 0x2113), (0x2115, 0x2115),
   (0x2119, 0x211D), (0x2124, 0x2124), (0x2126, 0x2126), (0x2128, 0x2128), (0x212A, 0x212D),
   (0x212F, 0x2134), (0x2139, 0x2139), (0x213C, 0x213F), (0x2145, 0x2149), (0x214E, 0x214E),
   (0x2160, 0x217F), (0x2183, 0x2184), (0x24B6, 0x24E9), (0x2C00, 0x2CE4), (0x2CEB, 0x2CEE),
   (0x2CF2, 0x2CF3), (0x2D00, 0x2D25), (0x2D27, 0x2D27), (0x2D2D, 0x2D2D), (0xA640, 0xA66D),
   (0xA680, 0xA69D), (0xA722, 0xA787), (0xA78B, 0xA78E), (0xA790, 0xA7CA), (0xA7D0, 0xA7D1),
   (0xA7D3, 0xA7D3), (0xA7D5, 0xA7D9), (0xA7F5, 0xA7F6), (0xA7F8, 0xA7FA), (0xAB30, 0xAB5A),
   (0xAB5C, 0xAB68), (0xAB70, 0xABBF), (0xFB00, 0xFB06), (0xFB13, 0xFB17), (0xFF21, 0xFF3A),
   (0xFF41, 0xFF5A), (0x10400, 0x1044F), (0x104B0, 0x104D3), (0x104D8, 0x104FB),
   (0x10570, 0x1057A), (0x1057C, 0x1058A), (0x1058C, 0x10592), (0x10594, 0x10595),
   (0x10597, 0x105A1), (0x105A3, 0x105B1), (0x105B3, 0x105B9), (0x105BB, 0x105BC),
   (0x10780, 0x10780), (0x10783, 0x10785), (0x10787, 0x107B0), (0x107B2, 0x107BA),
   (0x10C80, 0x10CB2), (0x10CC0, 0x10CF2), (0x118A0, 0x118DF), (0x16E40, 0x16E7F),
   (0x1D400, 0x1D454), (0x1D456, 0x1D49C), (0x1D49E, 0x1D49F), (0x1D4A2, 0x1D4A2),
   (0x1D4A5, 0x1D4A6), (0x1D4A9, 0x1D4AC), (0x1D4AE, 0x1D4B9), (0x1D4BB, 0x1D4BB),
   (0x1D4BD, 0x1D4C3), (0x1D4C5, 0x1D505), (0x1D507, 0x1D50A), (0x1D50D, 0x1D514),
   (0x1D516, 0x1D51C), (0x1D51E, 0x1D539), (0x1D53B, 0x1D53E), (0x1D540, 0x1D544),
   (0x1D546, 0x1D546), (0x1D54A, 0x1D550), (0x1D552, 0x1D6A5), (0x1D6A8, 0x1D6C0),
   (0x1D6C2, 0x1D6DA), (0x1D6DC, 0x1D6FA), (0x1D6FC, 0x1D714), (0x1D716, 0x1D734),
   (0x1D736, 0x1D74E), (0x1D750, 0x1D76E), (0x1D770, 0x1D788), (0x1D78A, 0x1D7A8),
   (0x1D7AA, 0x1D7C2), (0x1D7C4, 0x1D7CB), (0x1DF00, 0x1DF09), (0x1DF0B, 0x1DF1E),
   (0x1E900, 0x1E943), (0x1F130, 0x1F149), (0x1F150, 0x1F169), (0x1F170, 0x1F189)]

/-- The code points with the Unicode property `Case_Ignorable`, as ranges `(first, last)`
in increasing order. -/
def caseIgnorableRanges : List (Nat × Nat) :=
  [(0x27, 0x27), (0x2E, 0x2E), (0x3A, 0x3A), (0x5E, 0x5E), (0x60, 0x60), (0xA8, 0xA8),
   (0xAD, 0xAD), (0xAF, 0xAF), (0xB4, 0xB4), (0xB7, 0xB8), (0x2B0, 0x36F), (0x374, 0x375),
   (0x37A, 0x37A), (0x384, 0x385), (0x387, 0x387), (0x483, 0x489), (0x559, 0x559), (0x55F, 0x55F),
   (0x591, 0x5BD), (0x5BF, 0x5BF), (0x5C1, 0x5C2), (0x5C4, 0x5C5), (0x5C7, 0x5C7), (0x5F4, 0x5F4),
   (0x600, 0x605), (0x610, 0x61A), (0x61C, 0x61C), (0x640, 0x640), (0x64B, 0x65F), (0x670, 0x670),
   (0x6D6, 0x6DD), (0x6DF, 0x6E8), (0x6EA, 0x6ED), (0x70F, 0x70F), (0x711, 0x711), (0x730, 0x74A),
   (0x7A6, 0x7B0), (0x7EB, 0x7F5), (0x7FA, 0x7FA), (0x7FD, 0x7FD), (0x816, 0x82D), (0x859, 0x85B),
   (0x888, 0x888), (0x890, 0x891), (0x898, 0x89F), (0x8C9, 0x902), (0x93A, 0x93A), (0x93C, 0x93C),
   (0x941, 0x948), (0x94D, 0x94D), (0x951, 0x957), (0x962, 0x963), (0x971, 0x971), (0x981, 0x981),
   (0x9BC, 0x9BC), (0x9C1, 0x9C4), (0x9CD, 0x9CD), (0x9E2, 0x9E3), (0x9FE, 0x9FE), (0xA01, 0xA02),
   (0xA3C, 0xA3C), (0xA41, 0xA42), (0xA47, 0xA48), (0xA4B, 0xA4D), (0xA51, 0xA51), (0xA70, 0xA71),
   (0xA75, 0xA75), (0xA81, 0xA82), (0xABC, 0xABC), (0xAC1, 0xAC5), (0xAC7, 0xAC8), (0xACD, 0xACD),
   (0xAE2, 0xAE3), (0xAFA, 0xAFF), (0xB01, 0xB01), (0xB3C, 0xB3C), (0xB3F, 0xB3F), (0xB41, 0xB44),
   (0xB4D, 0xB4D), (0xB55, 0xB56), (0xB62, 0xB63), (0xB82, 0xB82), (0xBC0, 0xBC0), (0xBCD, 0xBCD),
   (0xC00, 0xC00), (0xC04, 0xC04), (0xC3C, 0xC3C), (0xC3E, 0xC40), (0xC46, 0xC48), (0xC4A, 0xC4D),
   (0xC55, 0xC56), (0xC62, 0xC63), (0xC81, 0xC81), (0xCBC, 0xCBC), (0xCBF, 0xCBF), (0xCC6, 0xCC6),
   (0xCCC, 0xCCD), (0xCE2, 0xCE3), (0xD00, 0xD01), (0xD3B, 0xD3C), (0xD41, 0xD44), (0xD4D, 0xD4D),
   (0xD62, 0xD63), (0xD81, 0xD81), (0xDCA, 0xDCA), (0xDD2, 0xDD4), (0xDD6, 0xDD6), (0xE31, 0xE31),
   (0xE34, 0xE3A), (0xE46, 0xE4E), (0xEB1, 0xEB1), (0xEB4, 0xEBC), (0xEC6, 0xEC6), (0xEC8, 0xECD),
   (0xF18, 0xF19), (0xF35, 0xF35), (0xF37, 0xF37), (0xF39, 0xF39), (0xF71, 0xF7E), (0xF80, 0xF84),
   (0xF86, 0xF87), (0xF8D, 0xF97), (0xF99, 0xFBC), (0xFC6, 0xFC6), (0x102D, 0x1030),
   (0x1032, 0x1037), (0x1039, 0x103A), (0x103D, 0x103E), (0x1058, 0x1059), (0x105E, 0x1060),
   (0x1071, 0x1074), (0x1082, 0x1082), (0x1085, 0x1086), (0x108D, 0x108D), (0x109D, 0x109D),
   (0x10FC, 0x10FC), (0x135D, 0x135F), (0x1712, 0x1714), (0x1732, 0x1733), (0x1752, 0x1753),
   (0x1772, 0x1773), (0x17B4, 0x17B5), (0x17B7, 0x17BD), (0x17C6, 0x17C6), (0x17C9, 0x17D3),
   (0x17D7, 0x17D7), (0x17DD, 0x17DD), (0x180B, 0x180F), (0x1843, 0x1843), (0x1885, 0x1886),
   (0x18A9, 0x18A9), (0x1920, 0x1922), (0x1927, 0x1928), (0x1932, 0x1932), (0x1939, 0x193B),
   (0x1A17, 0x1A18), (0x1A1B, 0x1A1B), (0x1A56, 0x1A56), (0x1A58, 0x1A5E), (0x1A60, 0x1A60),
   (0x1A62, 0x1A62), (0x1A65, 0x1A6C), (0x1A73, 0x1A7C), (0x1A7F, 0x1A7F), (0x1AA7, 0x1AA7),
   (0x1AB0, 0x1ACE), (0x1B00, 0x1B03), (0x1B34, 0x1B34), (0x1B36, 0x1B3A), (0x1B3C, 0x1B3C),
   (0x1B42, 0x1B42), (0x1B6B, 0x1B73), (0x1B80, 0x1B81), (0x1BA2, 0x1BA5), (0x1BA8, 0x1BA9),
   (0x1BAB, 0x1BAD), (0x1BE6, 0x1BE6), (0x1BE8, 0x1BE9), (0x1BED, 0x1BED), (0x1BEF, 0x1BF1),
   (0x1C2C, 0x1C33), (0x1C36, 0x1C37), (0x1C78, 0x1C7D), (0x1CD0, 0x1CD2), (0x1CD4, 0x1CE0),
   (0x1CE2, 0x1CE8), (0x1CED, 0x1CED), (0x1CF4, 0x1CF4), (0x1CF8, 0x1CF9), (0x1D2C, 0x1D6A),
   (0x1D78, 0x1D78), (0x1D9B, 0x1DFF), (0x1FBD, 0x1FBD), (0x1FBF, 0x1FC1), (0x1FCD, 0x1FCF),
   (0x1FDD, 0x1FDF), (0x1FED, 0x1FEF), (0x1FFD, 0x1FFE), (0x200B, 0x200F), (0x2018, 0x2019),
   (0x2024, 0x2024), (0x2027, 0x2027), (0x202A, 0x202E), (0x2060, 0x2064), (0x2066, 0x206F),
   (0x2071, 0x2071), (0x207F, 0x207F), (0x2090, 0x209C), (0x20D0, 0x20F0), (0x2C7C, 0x2C7D),
   (0x2CEF, 0x2CF1), (0x2D6F, 0x2D6F), (0x2D7F, 0x2D7F), (0x2DE0, 0x2DFF), (0x2E2F, 0x2E2F),
   (0x3005, 0x3005), (0x302A, 0x302D), (0x3031, 0x3035), (0x303B, 0x303B), (0x3099, 0x309E),
   (0x30FC, 0x30FE), (0xA015, 0xA015), (0xA4F8, 0xA4FD), (0xA60C, 0xA60C), (0xA66F, 0xA672),
   (0xA674, 0xA67D), (0xA67F, 0xA67F), (0xA69C, 0xA69F), (0xA6F0, 0xA6F1), (0xA700, 0xA721),
   (0xA770, 0xA770), (0xA788, 0xA78A), (0xA7F2, 0xA7F4), (0xA7F8, 0xA7F9), (0xA802, 0xA802),
   (0xA806, 0xA806), (0xA80B, 0xA80B), (0xA825, 0xA826), (0xA82C, 0xA82C), (0xA8C4, 0xA8C5),
   (0xA8E0, 0xA8F1), (0xA8FF, 0xA8FF), (0xA926, 0xA92D), (0xA947, 0xA951), (0xA980, 0xA982),
   (0xA9B3, 0xA9B3), (0xA9B6, 0xA9B9), (0xA9BC, 0xA9BD), (0xA9CF, 0xA9CF), (0xA9E5, 0xA9E6),
   (0xAA29, 0xAA2E), (0xAA31, 0xAA32), (0xAA35, 0xAA36), (0xAA43, 0xAA43), (0xAA4C, 0xAA4C),
   (0xAA70, 0xAA70), (0xAA7C, 0xAA7C), (0xAAB0, 0xAAB0), (0xAAB2, 0xAAB4), (0xAAB7, 0xAAB8),
   (0xAABE, 0xAABF), (0xAAC1, 0xAAC1), (0xAADD, 0xAADD), (0xAAEC, 0xAAED), (0xAAF3, 0xAAF4),
   (0xAAF6, 0xAAF6), (0xAB5B, 0xAB5F), (0xAB69, 0xAB6B), (0xABE5, 0xABE5), (0xABE8, 0xABE8),
   (0xABED, 0xABED), (0xFB1E, 0xFB1E), (0xFBB2, 0xFBC2), (0xFE00, 0xFE0F), (0xFE13, 0xFE13),
   (0xFE20, 0xFE2F), (0xFE52, 0xFE52), (0xFE55, 0xFE55), (0xFEFF, 0xFEFF), (0xFF07, 0xFF07),
   (0xFF0E, 0xFF0E), (0xFF1A, 0xFF1A), (0xFF3E, 0xFF3E), (0xFF40, 0xFF40), (0xFF70, 0xFF70),
   (0xFF9E, 0xFF9F), (0xFFE3, 0xFFE3), (0xFFF9, 0xFFFB), (0x101FD, 0x101FD), (0x102E0, 0x102E0),
   (0x10376, 0x1037A), (0x10780, 0x10785), (0x10787, 0x107B0), (0x107B2, 0x107BA),
   (0x10A01, 0x10A03), (0x10A05, 0x10A06), (0x10A0C, 0x10A0F), (0x10A38, 0x10A3A),
   (0x10A3F, 0x10A3F), (0x10AE5, 0x10AE6), (0x10D24, 0x10D27), (0x10EAB, 0x10EAC),
   (0x10F46, 0x10F50), (0x10F82, 0x10F85), (0x11001, 0x11001), (0x11038, 0x11046),
   (0x11070, 0x11070), (0x11073, 0x11074), (0x1107F, 0x11081), (0x110B3, 0x110B6),
   (0x110B9, 0x110BA), (0x110BD, 0x110BD), (0x110C2, 0x110C2), (0x110CD, 0x110CD),
   (0x11100, 0x11102), (0x11127, 0x1112B), (0x1112D, 0x11134), (0x11173, 0x11173),
   (0x11180, 0x11181), (0x111B6, 0x111BE), (0x111C9, 0x111CC), (0x111CF, 0x111CF),
   (0x1122F, 0x11231), (0x11234, 0x11234), (0x11236, 0x11237), (0x1123E, 0x1123E),
   (0x112DF, 0x112DF), (0x112E3, 0x112EA), (0x11300, 0x11301), (0x1133B, 0x1133C),
   (0x11340, 0x11340), (0x11366, 0x1136C), (0x11370, 0x11374), (0x11438, 0x1143F),
   (0x11442, 0x11444), (0x11446, 0x11446), (0x1145E, 0x1145E), (0x114B3, 0x114B8),
   (0x114BA, 0x114BA), (0x114BF, 0x114C0), (0x114C2, 0x114C3), (0x115B2, 0x115B5),
   (0x115BC, 0x115BD), (0x115BF, 0x115C0), (0x115DC, 0x115DD), (0x11633, 0x1163A),
   (0x1163D, 0x1163D), (0x1163F, 0x11640), (0x116AB, 0x116AB), (0x116AD, 0x116AD),
   (0x116B0, 0x116B5), (0x116B7, 0x116B7), (0x1171D, 0x1171F), (0x11722, 0x11725),
   (0x11727, 0x1172B), (0x1182F, 0x11837), (0x11839, 0x1183A), (0x1193B, 0x1193C),
   (0x1193E, 0x1193E), (0x11943, 0x11943), (0x119D4, 0x119D7), (0x119DA, 0x119DB),
   (0x119E0, 0x119E0), (0x11A01, 0x11A0A), (0x11A33, 0x11A38), (0x11A3B, 0x11A3E),
   (0x11A47, 0x11A47), (0x11A51, 0x11A56), (0x11A59, 0x11A5B), (0x11A8A, 0x11A96),
   (0x11A98, 0x11A99), (0x11C30, 0x11C36), (0x11C38, 0x11C3D), (0x11C3F, 0x11C3F),
   (0x11C92, 0x11CA7), (0x11CAA, 0x11CB0), (0x11CB2, 0x11CB3), (0x11CB5, 0x11CB6),
   (0x11D31, 0x11D36), (0x11D3A, 0x11D3A), (0x11D3C, 0x11D3D), (0x11D3F, 0x11D45),
   (0x11D47, 0x11D47), (0x11D90, 0x11D91), (0x11D95, 0x11D95), (0x11D97, 0x11D97),
   (0x11EF3, 0x11EF4), (0x13430, 0x13438), (0x16AF0, 0x16AF4), (0x16B30, 0x16B36),
   (0x16B40, 0x16B43), (0x16F4F, 0x16F4F), (0x16F8F, 0x16F9F), (0x16FE0, 0x16FE1),
   (0x16FE3, 0x16FE4), (0x1AFF0, 0x1AFF3), (0x1AFF5, 0x1AFFB), (0x1AFFD, 0x1AFFE),
   (0x1BC9D, 0x1BC9E), (0x1BCA0, 0x1BCA3), (0x1CF00, 0x1CF2D), (0x1CF30, 0x1CF46),
   (0x1D167, 0x1D169), (0x1D173, 0x1D182), (0x1D185, 0x1D18B), (0x1D1AA, 0x1D1AD),
   (0x1D242, 0x1D244), (0x1DA00, 0x1DA36), (0x1DA3B, 0x1DA6C), (0x1DA75, 0x1DA75),
   (0x1DA84, 0x1DA84), (0x1DA9B, 0x1DA9F), (0x1DAA1, 0x1DAAF), (0x1E000, 0x1E006),
   (0x1E008, 0x1E018), (0x1E01B, 0x1E021), (0x1E023, 0x1E024), (0x1E026, 0x1E02A),
   (0x1E130, 0x1E13D), (0x1E2AE, 0x1E2AE), (0x1E2EC, 0x1E2EF), (0x1E8D0, 0x1E8D6),
   (0x1E944, 0x1E94B), (0x1F3FB, 0x1F3FF), (0xE0001, 0xE0001), (0xE0020, 0xE007F),
   (0xE0100, 0xE01EF)]

/-- Membership of a code point in a list of ranges given in increasing order. -/
def inRanges (n : Nat) : List (Nat × Nat) → Bool
  | [] => false
  | (first, last) :: rs =>
    if n < first then false else if n ≤ last then true else inRanges n rs

/-- The image of a code point under a list of runs given in increasing order. -/
def applyRuns (n : Nat) : List (Nat × Nat × Nat × Nat) → Nat
  | [] => n
  | (first, last, step, image) :: rs =>
    if n < first then n
    else if n ≤ last then (if (n - first) % step = 0 then image + (n - first) else n)
    else applyRuns n rs

/-- Lower-casing of one character by the simple mapping of the Unicode Character
Database; on ASCII this maps `A`..`Z` to `a`..`z` and keeps everything else. -/
def lowerChar (c : Char) : Char :=
  Char.ofNat (applyRuns c.toNat lowerRuns)

/-- Whether the characters `cs`, read from the nearest one on, consist of case-ignorable
characters and then a cased letter: the test of the `Final_Sigma` condition, used on the
text before a capital sigma (nearest character first) and on the text after it. -/
def casedNext : List Char → Bool
  | [] => false
  | c :: cs =>
    if inRanges c.toNat caseIgnorableRanges then casedNext cs
    else inRanges c.toNat casedRanges

/-- Lower-casing of the characters of a string, `prev` being the characters already
passed, nearest first. Two characters have a mapping of their own (`SpecialCasing.txt`):
capital sigma U+03A3 becomes final sigma U+03C2 when it ends a word (`Final_Sigma`) and
small sigma U+03C3 otherwise, and U+0130 becomes `i` followed by U+0307. -/
def lowerFrom (prev : List Char) : List Char → List Char
  | [] => []
  | c :: cs =>
    (if c.toNat = 0x3A3 then
      [if casedNext prev ∧ ¬ casedNext cs then Char.ofNat 0x3C2 else Char.ofNat 0x3C3]
    else if c.toNat = 0x130 then [Char.ofNat 0x69, Char.ofNat 0x307]
    else [lowerChar c]) ++ lowerFrom (c :: prev) cs

/-- `String.prototype.toLowerCase`: the locale-insensitive lower-case conversion of the
Unicode Character Database (version 14.0; the engine's own version may know more cased
letters), over the code points of the string. -/
def toLowerCase (s : String) : String :=
  String.mk (lowerFrom [] s.data)

/-- The method call `v.toLowerCase()`: defined on strings only; on any other value
the call throws a `TypeError`, which is `none` here. -/
def lowerOf : JsVal → Option String
  | .str s => some (toLowerCase s)
  | _ => none

/-! ## Data model -/

/-- One task object of the `tareas` array. -/
structure Tarea where
  id : Int
  titulo : JsVal
  descripcion : JsVal
  estado : JsVal
  pasos : JsVal

/-- The module-level state: `let tareas = [...]` and `let nextId = 4`. -/
structure Store where
  tareas : List Tarea
  nextId : Int

/-- The four properties the handlers read from `req.body`. -/
structure Body where
  titulo : JsVal
  descripcion : JsVal
  estado : JsVal
  pasos : JsVal

/-- What a handler sends back. -/
inductive Payload where
  | tarea (t : Tarea)
  | lista (ts : List Tarea)
  | mensaje (m : String)
  | vacio
  | fallo

/-- An HTTP response: status code and payload. -/
structure Resp where
  status : Nat
  body : Payload

/-- The initial state of the process (`src/app.js`, lines 16-22). -/
def seed : Store :=
  { tareas :=
      [ { id := 1, titulo := .str "Configurar Servidor",
          descripcion := .str "Instalar y levantar Express",
          estado := .str "completada",
          pasos := .arr [.str "npm init", .str "npm install express"] },
        { id := 2, titulo := .str "Implementar GET",
          descripcion := .str "Crear la ruta para obtener tareas",
          estado := .str "pendiente",
          pasos := .arr [.str "app.get('/tareas', ...)"] },
        { id := 3, titulo := .str "Probar API",
          descripcion := .str "Usar Postman para todas las rutas",
          estado := .str "pendiente",
          pasos := .arr [] } ],
    nextId := 4 }

/-! ## Array helpers -/

/-- `Array.prototype.findIndex`: the first position whose element satisfies `p`;
`none` is the result `-1`. -/
def findIndex (p : Tarea → Bool) : List Tarea → Option Nat
  | [] => none
  | t :: ts => if p t then some 0 else (findIndex p ts).map (· + 1)

/-- The comparison `t.id === id`, where `id` is the result of `parseInt`
(`NaN` is equal to nothing). -/
def idIs (id : Option Int) (t : Tarea) : Bool :=
  match id with
  | some n => decide (t.id = n)
  | none => false

/-- The search `tareas.find(t => t.titulo.toLowerCase() === tituloBuscado)`:
`none` when a `toLowerCase` call throws before a match is found, otherwise
`some` of the first match (or of `none`, JavaScript's `undefined`). -/
def findTitulo (tituloBuscado : String) : List Tarea → Option (Option Tarea)
  | [] => some none
  | t :: ts =>
    match lowerOf t.titulo with
    | none => none
    | some l => if l = tituloBuscado then some (some t) else findTitulo tituloBuscado ts

/-- The selection `tareas.filter(t => t.estado.toLowerCase() === estadoBuscado)`:
`none` when a `toLowerCase` call throws. -/
def filterEstado (estadoBuscado : String) : List Tarea → Option (List Tarea)
  | [] => some []
  | t :: ts =>
    match lowerOf t.estado with
    | none => none
    | some l =>
      match filterEstado estadoBuscado ts with
      | none => none
      | some r => some (if l = estadoBuscado then t :: r else r)

/-! ## Responses -/

/-- The body `{ mensaje: 'Tarea no encontrada' }` with status 404. -/
def noEncontrada : Resp :=
  ⟨404, .mensaje "Tarea no encontrada"⟩

/-- The answer of Express to a handler that threw. -/
def fallo : Resp :=
  ⟨500, .fallo⟩

/-! ## Route handlers -/

/-- The handler `GET /tareas`. -/
def getTareas (s : Store) : Store × Resp :=
  (s, ⟨200, .lista s.tareas⟩)

/-- The handler `GET /tareas/titulo/:titulo`. -/
def getPorTitulo (s : Store) (titulo : String) : Store × Resp :=
  let tituloBuscado := toLowerCase titulo
  match findTitulo tituloBuscado s.tareas with
  | none => (s, fallo)
  | some (some tarea) => (s, ⟨200, .tarea tarea⟩)
  | some none => (s, noEncontrada)

/-- The handler `GET /tareas/estado/:estado`. -/
def getPorEstado (s : Store) (estado : String) : Store × Resp :=
  let estadoBuscado := toLowerCase estado
  if estadoBuscado ≠ "pendiente" ∧ estadoBuscado ≠ "completada" then
    (s, ⟨400, .mensaje "Estado no válido. Use 'pendiente' o 'completada'."⟩)
  else
    match filterEstado estadoBuscado s.tareas with
    | none => (s, fallo)
    | some tareasFiltradas => (s, ⟨200, .lista tareasFiltradas⟩)

/-- The handler `POST /tareas`. -/
def postTareas (s : Store) (nuevaTareaData : Body) : Store × Resp :=
  if !truthy nuevaTareaData.titulo || !truthy nuevaTareaData.descripcion then
    (s, ⟨400, .mensaje "El título y la descripción son obligatorios."⟩)
  else
    let nuevaTarea : Tarea :=
      { id := s.nextId,
        titulo := nuevaTareaData.titulo,
        descripcion := nuevaTareaData.descripcion,
        estado := orElse nuevaTareaData.estado (.str "pendiente"),
        pasos := orElse nuevaTareaData.pasos (.arr []) }
    ({ tareas := s.tareas ++ [nuevaTarea], nextId := s.nextId + 1 }, ⟨201, .tarea nuevaTarea⟩)

/-- The handler `PUT /tareas/:id`; `id` is the result of `parseInt(req.params.id)`. -/
def putTarea (s : Store) (id : Option Int) (datosActualizados : Body) : Store × Resp :=
  match id, findIndex (idIs id) s.tareas with
  | some n, some index =>
    match s.tareas[index]? with
    | none => (s, fallo)
    | some actual =>
      let nueva : Tarea :=
        { id := n,
          titulo := orElse datosActualizados.titulo actual.titulo,
          descripcion := orElse datosActualizados.descripcion actual.descripcion,
          estado := orElse datosActualizados.estado actual.estado,
          pasos := orElse datosActualizados.pasos actual.pasos }
      ({ s with tareas := s.tareas.set index nueva }, ⟨200, .tarea nueva⟩)
  | _, _ => (s, noEncontrada)

/-- The handler `PATCH /tareas/estado/:id`. -/
def patchEstado (s : Store) (id : Option Int) (body : Body) : Store × Resp :=
  match findIndex (idIs id) s.tareas with
  | some index =>
    let nuevoEstado := body.estado
    if !truthy nuevoEstado then
      (s, ⟨400, .mensaje "El estado debe ser 'pendiente' o 'completada'."⟩)
    else
      match lowerOf nuevoEstado with
      | none => (s, fallo)
      | some l =>
        if l ≠ "pendiente" ∧ l ≠ "completada" then
          (s, ⟨400, .mensaje "El estado debe ser 'pendiente' o 'completada'."⟩)
        else
          match s.tareas[index]? with
          | none => (s, fallo)
          | some actual =>
            let nueva : Tarea := { actual with estado := .str l }
            ({ s with tareas := s.tareas.set index nueva }, ⟨200, .tarea nueva⟩)
  | none => (s, noEncontrada)

/-- The handler `DELETE /tareas/:id`. -/
def deleteTarea (s : Store) (id : Option Int) : Store × Resp :=
  let initialLength := s.tareas.length
  let tareas := s.tareas.filter (fun t => !idIs id t)
  if tareas.length < initialLength then
    ({ s with tareas := tareas }, ⟨204, .vacio⟩)
  else
    ({ s with tareas := tareas }, noEncontrada)

/-! ## Requests and runs -/

/-- One request to the service, after routing and parameter parsing. -/
inductive Req where
  | listar
  | porTitulo (titulo : String)
  | porEstado (estado : String)
  | crear (body : Body)
  | actualizar (id : Option Int) (body : Body)
  | cambiarEstado (id : Option Int) (body : Body)
  | eliminar (id : Option Int)

/-- The service handles one request. -/
def step (s : Store) : Req → Store × Resp
  | .listar => getTareas s
  | .porTitulo titulo => getPorTitulo s titulo
  | .porEstado estado => getPorEstado s estado
  | .crear body => postTareas s body
  | .actualizar id body => putTarea s id body
  | .cambiarEstado id body => patchEstado s id body
  | .eliminar id => deleteTarea s id

/-- The state after handling the requests `rs` one after the other. -/
def run (s : Store) : List Req → Store
  | [] => s
  | r :: rs => run (step s r).1 rs

/-- The id a request hands out: the id of the task in the 201 answer of a creation. -/
def asignado (s : Store) (r : Req) : List Int :=
  match r, (step s r).2 with
  | .crear _, ⟨201, .tarea t⟩ => [t.id]
  | _, _ => []

/-- The ids handed out by the creations of a run, oldest first. -/
def asignados (s : Store) : List Req → List Int
  | [] => []
  | r :: rs => asignado s r ++ asignados (step s r).1 rs

/-- The ids of the tasks of a state, in list order. -/
def ids (s : Store) : List Int :=
  s.tareas.map (fun t => t.id)

/-- The invariant of the service, relative to the list `A` of all ids handed out so far
(oldest first): ids are handed out in increasing order, `nextId` is one more than the
last of them, the tasks of the list carry handed-out ids in increasing order, and the
title and description of every task are truthy. -/
def Inv (A : List Int) (s : Store) : Prop :=
  A.Pairwise (· < ·) ∧ (∀ a ∈ A, a < s.nextId) ∧ s.nextId - 1 ∈ A ∧
  (ids s).Pairwise (· < ·) ∧ (∀ i ∈ ids s, i ∈ A) ∧
  ∀ t ∈ s.tareas, truthy t.titulo = true ∧ truthy t.descripcion = true

/-! ## Array facts -/

theorem findIndex_none {p : Tarea → Bool} {l : List Tarea} :
    findIndex p l = none ↔ ∀ u ∈ l, p u = false := by
  induction l with
  | nil => simp [findIndex]
  | cons t ts ih =>
    by_cases h : p t = true
    · simp [findIndex, h]
    · simp only [Bool.not_eq_true] at h
      simp [findIndex, h, ih]

theorem findIndex_some {p : Tarea → Bool} {l : List Tarea} {i : Nat}
    (h : findIndex p l = some i) :
    ∃ pre t post, l = pre ++ t :: post ∧ pre.length = i ∧ p t = true ∧
      ∀ u ∈ pre, p u = false := by
  induction l generalizing i with
  | nil => simp [findIndex] at h
  | cons a ts ih =>
    by_cases ha : p a = true
    · simp only [findIndex, ha, if_true, Option.some.injEq] at h
      exact ⟨[], a, ts, rfl, by simpa using h, ha, by simp⟩
    · simp only [Bool.not_eq_true] at ha
      simp only [findIndex, ha, Bool.false_eq_true, if_false, Option.map_eq_some'] at h
      obtain ⟨j, hj, rfl⟩ := h
      obtain ⟨pre, t, post, rfl, hlen, hpt, hpre⟩ := ih hj
      refine ⟨a :: pre, t, post, rfl, by simp [hlen], hpt, ?_⟩
      intro u hu
      rcases List.mem_cons.mp hu with rfl | hu
      · exact ha
      · exact hpre u hu

theorem findIndex_append {p : Tarea → Bool} (pre : List Tarea) (t : Tarea) (post : List Tarea)
    (hpre : ∀ u ∈ pre, p u = false) (ht : p t = true) :
    findIndex p (pre ++ t :: post) = some pre.length := by
  induction pre with
  | nil => simp [findIndex, ht]
  | cons a pre ih =>
    have ha : p a = false := hpre a (List.mem_cons_self _ _)
    have := ih (fun u hu => hpre u (List.mem_cons_of_mem _ hu))
    simp [findIndex, ha, this]

theorem getElem?_append_length (pre : List Tarea) (t : Tarea) (post : List Tarea) :
    (pre ++ t :: post)[pre.length]? = some t := by
  induction pre with
  | nil => simp
  | cons a pre ih => simpa using ih

theorem set_append_length (pre : List Tarea) (t x : Tarea) (post : List Tarea) :
    (pre ++ t :: post).set pre.length x = pre ++ x :: post := by
  induction pre with
  | nil => rfl
  | cons a pre ih => simp [List.set, ih]

theorem idIs_true {id : Option Int} {t : Tarea} : idIs id t = true ↔ id = some t.id := by
  cases id with
  | none => simp [idIs]
  | some n => simp [idIs, eq_comm]

theorem idIs_false {id : Option Int} {t : Tarea} : idIs id t = false ↔ id ≠ some t.id := by
  cases id with
  | none => simp [idIs]
  | some n => simp [idIs, eq_comm]

/-- Some task with id `n` splits the list at the first such task. -/
theorem first_with_id (l : List Tarea) (n : Int) (h : ∃ t ∈ l, t.id = n) :
    ∃ pre t post, l = pre ++ t :: post ∧ t.id = n ∧ ∀ u ∈ pre, u.id ≠ n := by
  cases hf : findIndex (idIs (some n)) l with
  | none =>
    obtain ⟨t, ht, hn⟩ := h
    have := findIndex_none.mp hf t ht
    rw [idIs_false] at this
    exact absurd (by rw [hn]) this
  | some i =>
    obtain ⟨pre, t, post, hl, -, hpt, hpre⟩ := findIndex_some hf
    refine ⟨pre, t, post, hl, ?_, ?_⟩
    · have := idIs_true.mp hpt
      simpa using this.symm
    · intro u hu hn
      have := idIs_false.mp (hpre u hu)
      exact this (by rw [hn])

/-! ## What each handler does -/

theorem putTarea_found (s : Store) (n : Int) (b : Body) (pre : List Tarea) (t : Tarea)
    (post : List Tarea) (hs : s.tareas = pre ++ t :: post) (hpre : ∀ u ∈ pre, u.id ≠ n)
    (ht : t.id = n) :
    putTarea s (some n) b =
      ({ tareas := pre ++
            { id := n, titulo := orElse b.titulo t.titulo,
              descripcion := orElse b.descripcion t.descripcion,
              estado := orElse b.estado t.estado,
              pasos := orElse b.pasos t.pasos } :: post,
         nextId := s.nextId },
       ⟨200, .tarea
            { id := n, titulo := orElse b.titulo t.titulo,
              descripcion := orElse b.descripcion t.descripcion,
              estado := orElse b.estado t.estado,
              pasos := orElse b.pasos t.pasos }⟩) := by
  have hf : findIndex (idIs (some n)) s.tareas = some pre.length := by
    rw [hs]
    apply findIndex_append
    · intro u hu
      rw [idIs_false]
      intro h
      exact hpre u hu (by simpa using h.symm)
    · rw [idIs_true, ht]
  simp only [putTarea, hf]
  simp only [hs, getElem?_append_length, set_append_length]

theorem putTarea_missing (s : Store) (id : Option Int) (b : Body)
    (h : ∀ u ∈ s.tareas, id ≠ some u.id) :
    putTarea s id b = (s, noEncontrada) := by
  have hf : findIndex (idIs id) s.tareas = none :=
    findIndex_none.mpr (fun u hu => idIs_false.mpr (h u hu))
  cases id <;> simp [putTarea, hf]

theorem patchEstado_missing (s : Store) (id : Option Int) (b : Body)
    (h : ∀ u ∈ s.tareas, id ≠ some u.id) :
    patchEstado s id b = (s, noEncontrada) := by
  have hf : findIndex (idIs id) s.tareas = none :=
    findIndex_none.mpr (fun u hu => idIs_false.mpr (h u hu))
  simp [patchEstado, hf]

theorem patchEstado_found (s : Store) (n : Int) (b : Body) (pre : List Tarea) (t : Tarea)
    (post : List Tarea) (hs : s.tareas = pre ++ t :: post) (hpre : ∀ u ∈ pre, u.id ≠ n)
    (ht : t.id = n) :
    patchEstado s (some n) b =
      if !truthy b.estado then
        (s, ⟨400, .mensaje "El estado debe ser 'pendiente' o 'completada'."⟩)
      else
        match lowerOf b.estado with
        | none => (s, fallo)
        | some l =>
          if l ≠ "pendiente" ∧ l ≠ "completada" then
            (s, ⟨400, .mensaje "El estado debe ser 'pendiente' o 'completada'."⟩)
          else
            ({ tareas := pre ++ { t with estado := .str l } :: post, nextId := s.nextId },
             ⟨200, .tarea { t with estado := .str l }⟩) := by
  have hf : findIndex (idIs (some n)) s.tareas = some pre.length := by
    rw [hs]
    apply findIndex_append
    · intro u hu
      rw [idIs_false]
      intro h
      exact hpre u hu (by simpa using h.symm)
    · rw [idIs_true, ht]
  simp only [patchEstado, hf]
  simp only [hs, getElem?_append_length, set_append_length]

theorem postTareas_ok (s : Store) (b : Body) (ht : truthy b.titulo = true)
    (hd : truthy b.descripcion = true) :
    postTareas s b =
      ({ tareas := s.tareas ++
            [{ id := s.nextId, titulo := b.titulo, descripcion := b.descripcion,
               estado := orElse b.estado (.str "pendiente"),
               pasos := orElse b.pasos (.arr []) }],
         nextId := s.nextId + 1 },
       ⟨201, .tarea
            { id := s.nextId, titulo := b.titulo, descripcion := b.descripcion,
              estado := orElse b.estado (.str "pendiente"),
              pasos := orElse b.pasos (.arr []) }⟩) := by
  simp [postTareas, ht, hd]

theorem postTareas_rejected (s : Store) (b : Body)
    (h : truthy b.titulo = false ∨ truthy b.descripcion = false) :
    postTareas s b = (s, ⟨400, .mensaje "El título y la descripción son obligatorios."⟩) := by
  rcases h with h | h <;> simp [postTareas, h]

theorem deleteTarea_store (s : Store) (id : Option Int) :
    (deleteTarea s id).1 =
      { tareas := s.tareas.filter (fun t => !idIs id t), nextId := s.nextId } := by
  unfold deleteTarea
  simp only
  split <;> rfl

/-- The shape of one step: the state is kept, or a task is appended, or the first task
with the given id is replaced, or the tasks with the given id are filtered out. -/
theorem step_shape (s : Store) (r : Req) :
    ((step s r).1 = s ∧ asignado s r = []) ∨
    (∃ b, r = .crear b ∧ truthy b.titulo = true ∧ truthy b.descripcion = true ∧
      asignado s r = [s.nextId] ∧
      (step s r).1 =
        { tareas := s.tareas ++
            [{ id := s.nextId, titulo := b.titulo, descripcion := b.descripcion,
               estado := orElse b.estado (.str "pendiente"),
               pasos := orElse b.pasos (.arr []) }],
          nextId := s.nextId + 1 }) ∨
    (∃ pre t post t', s.tareas = pre ++ t :: post ∧ t'.id = t.id ∧ asignado s r = [] ∧
      (truthy t.titulo = true → truthy t'.titulo = true) ∧
      (truthy t.descripcion = true → truthy t'.descripcion = true) ∧
      (step s r).1 = { tareas := pre ++ t' :: post, nextId := s.nextId }) ∨
    (∃ id, r = .eliminar id ∧ asignado s r = [] ∧
      (step s r).1 =
        { tareas := s.tareas.filter (fun t => !idIs id t), nextId := s.nextId }) := by
  cases r with
  | listar => exact Or.inl ⟨rfl, rfl⟩
  | porTitulo titulo =>
    refine Or.inl ⟨?_, rfl⟩
    simp only [step, getPorTitulo]
    split <;> rfl
  | porEstado estado =>
    refine Or.inl ⟨?_, rfl⟩
    simp only [step, getPorEstado]
    split
    · rfl
    · split <;> rfl
  | crear b =>
    by_cases ht : truthy b.titulo = true
    · by_cases hd : truthy b.descripcion = true
      · refine Or.inr (Or.inl ⟨b, rfl, ht, hd, ?_, ?_⟩)
        · simp [asignado, step, postTareas_ok s b ht hd]
        · simp [step, postTareas_ok s b ht hd]
      · simp only [Bool.not_eq_true] at hd
        refine Or.inl ⟨?_, ?_⟩
        · simp [step, postTareas_rejected s b (Or.inr hd)]
        · simp [asignado, step, postTareas_rejected s b (Or.inr hd)]
    · simp only [Bool.not_eq_true] at ht
      refine Or.inl ⟨?_, ?_⟩
      · simp [step, postTareas_rejected s b (Or.inl ht)]
      · simp [asignado, step, postTareas_rejected s b (Or.inl ht)]
  | actualizar id b =>
    by_cases h : ∃ t ∈ s.tareas, id = some t.id
    · obtain ⟨t0, ht0, rfl⟩ := h
      obtain ⟨pre, t, post, hs, ht, hpre⟩ := first_with_id s.tareas t0.id ⟨t0, ht0, rfl⟩
      refine Or.inr (Or.inr (Or.inl ⟨pre, t, post,
        { id := t0.id, titulo := orElse b.titulo t.titulo,
          descripcion := orElse b.descripcion t.descripcion,
          estado := orElse b.estado t.estado,
          pasos := orElse b.pasos t.pasos }, hs, ht.symm, rfl, ?_, ?_, ?_⟩))
      · intro h; simp only [orElse]; split <;> assumption
      · intro h; simp only [orElse]; split <;> assumption
      · simp only [step, putTarea_found s t0.id b pre t post hs hpre ht]
    · refine Or.inl ⟨?_, rfl⟩
      simp only [step]
      rw [putTarea_missing]
      intro u hu hid
      exact h ⟨u, hu, hid⟩
  | cambiarEstado id b =>
    by_cases h : ∃ t ∈ s.tareas, id = some t.id
    · obtain ⟨t0, ht0, rfl⟩ := h
      obtain ⟨pre, t, post, hs, ht, hpre⟩ := first_with_id s.tareas t0.id ⟨t0, ht0, rfl⟩
      have hp := patchEstado_found s t0.id b pre t post hs hpre ht
      by_cases h1 : truthy b.estado = true
      · cases hl : lowerOf b.estado with
        | none =>
          refine Or.inl ⟨?_, rfl⟩
          simp [step, hp, h1, hl]
        | some l =>
          by_cases h2 : l ≠ "pendiente" ∧ l ≠ "completada"
          · refine Or.inl ⟨?_, rfl⟩
            simp [step, hp, h1, hl, h2]
          · refine Or.inr (Or.inr (Or.inl
              ⟨pre, t, post, { t with estado := .str l }, hs, rfl, rfl, id, id, ?_⟩))
            simp only [step, hp, h1, hl]
            simp [h2]
      · refine Or.inl ⟨?_, rfl⟩
        simp [step, hp, h1]
    · refine Or.inl ⟨?_, rfl⟩
      simp only [step]
      rw [patchEstado_missing]
      intro u hu hid
      exact h ⟨u, hu, hid⟩
  | eliminar id =>
    exact Or.inr (Or.inr (Or.inr ⟨id, rfl, rfl, deleteTarea_store s id⟩))

theorem filter_keeps_all (s : Store) (id : Option Int)
    (h : ∀ u ∈ s.tareas, id ≠ some u.id) :
    s.tareas.filter (fun t => !idIs id t) = s.tareas := by
  rw [List.filter_eq_self]
  intro u hu
  simp [idIs_false.mpr (h u hu)]

theorem deleteTarea_missing (s : Store) (id : Option Int)
    (h : ∀ u ∈ s.tareas, id ≠ some u.id) :
    deleteTarea s id = (s, noEncontrada) := by
  simp [deleteTarea, filter_keeps_all s id h]

theorem deleteTarea_unique (s : Store) (n : Int) (pre : List Tarea) (t : Tarea)
    (post : List Tarea) (hs : s.tareas = pre ++ t :: post) (ht : t.id = n)
    (hpre : ∀ u ∈ pre, u.id ≠ n) (hpost : ∀ u ∈ post, u.id ≠ n) :
    deleteTarea s (some n) = ({ tareas := pre ++ post, nextId := s.nextId }, ⟨204, .vacio⟩) := by
  have h1 : pre.filter (fun t => !idIs (some n) t) = pre := by
    rw [List.filter_eq_self]
    intro u hu
    have : idIs (some n) u = false :=
      idIs_false.mpr (fun h => hpre u hu (by simpa using h.symm))
    simp [this]
  have h2 : post.filter (fun t => !idIs (some n) t) = post := by
    rw [List.filter_eq_self]
    intro u hu
    have : idIs (some n) u = false :=
      idIs_false.mpr (fun h => hpost u hu (by simpa using h.symm))
    simp [this]
  have h3 : idIs (some n) t = true := by rw [idIs_true, ht]
  have hf : s.tareas.filter (fun t => !idIs (some n) t) = pre ++ post := by
    rw [hs, List.filter_append, List.filter_cons, h1, h2]
    simp [h3]
  have hlen : (pre ++ post).length < s.tareas.length := by
    rw [hs]
    simp
  simp only [deleteTarea, hf, hlen, if_true]

theorem deleteTarea_error (s : Store) (id : Option Int)
    (hr : 400 ≤ (deleteTarea s id).2.status) : (deleteTarea s id).1 = s := by
  simp only [deleteTarea] at hr ⊢
  split at hr
  · simp at hr
  · rename_i hlen
    have hle := List.length_filter_le (fun t => !idIs id t) s.tareas
    have heq : (s.tareas.filter (fun t => !idIs id t)).length = s.tareas.length := by
      omega
    have : s.tareas.filter (fun t => !idIs id t) = s.tareas := by
      rw [List.filter_eq_self]
      exact List.filter_length_eq_length.mp heq
    simp [hlen, this]

theorem lowerOf_valid_truthy (e : String)
    (he : toLowerCase e = "pendiente" ∨ toLowerCase e = "completada") :
    truthy (.str e) = true := by
  have : e ≠ "" := by
    intro h
    rw [h] at he
    revert he
    decide
  simp [truthy, this]

theorem patchEstado_ok (s : Store) (n : Int) (b : Body) (e : String) (pre : List Tarea)
    (t : Tarea) (post : List Tarea) (hs : s.tareas = pre ++ t :: post)
    (hpre : ∀ u ∈ pre, u.id ≠ n) (ht : t.id = n) (hb : b.estado = .str e)
    (he : toLowerCase e = "pendiente" ∨ toLowerCase e = "completada") :
    patchEstado s (some n) b =
      ({ tareas := pre ++
            { id := t.id, titulo := t.titulo, descripcion := t.descripcion,
              estado := .str (toLowerCase e), pasos := t.pasos } :: post,
         nextId := s.nextId },
       ⟨200, .tarea
            { id := t.id, titulo := t.titulo, descripcion := t.descripcion,
              estado := .str (toLowerCase e), pasos := t.pasos }⟩) := by
  rw [patchEstado_found s n b pre t post hs hpre ht, hb]
  have h2 : ¬ (toLowerCase e ≠ "pendiente" ∧ toLowerCase e ≠ "completada") := by
    rintro ⟨h3, h4⟩
    rcases he with he | he
    · exact h3 he
    · exact h4 he
  simp only [lowerOf_valid_truthy e he, lowerOf, h2, if_false, Bool.not_true,
    Bool.false_eq_true]

/-! ## The invariant -/

theorem inv_seed : Inv [1, 2, 3] seed := by
  refine ⟨by decide, by decide, by decide, by decide, by decide, ?_⟩
  intro t ht
  simp only [seed, List.mem_cons, List.mem_singleton, List.not_mem_nil, or_false] at ht
  rcases ht with rfl | rfl | rfl <;> exact ⟨by decide, by decide⟩

theorem inv_step (A : List Int) (s : Store) (r : Req) (h : Inv A s) :
    Inv (A ++ asignado s r) (step s r).1 := by
  obtain ⟨hA, hlt, hlast, hsorted, hsub, htr⟩ := h
  rcases step_shape s r with ⟨hs, ha⟩ | ⟨b, -, ht, hd, ha, hs⟩ |
      ⟨pre, t, post, t', hl, hid, ha, htt, htd, hs⟩ | ⟨id, -, ha, hs⟩
  · rw [hs, ha, List.append_nil]
    exact ⟨hA, hlt, hlast, hsorted, hsub, htr⟩
  · rw [hs, ha]
    refine ⟨?_, ?_, ?_, ?_, ?_, ?_⟩
    · rw [List.pairwise_append]
      refine ⟨hA, List.pairwise_singleton _ _, ?_⟩
      intro a ha' b' hb'
      rw [List.mem_singleton] at hb'
      rw [hb']
      exact hlt a ha'
    · intro a ha'
      rcases List.mem_append.mp ha' with h1 | h1
      · have := hlt a h1
        show a < s.nextId + 1
        omega
      · rw [List.mem_singleton] at h1
        show a < s.nextId + 1
        omega
    · show s.nextId + 1 - 1 ∈ A ++ [s.nextId]
      simp
    · show List.Pairwise (· < ·) (List.map (fun t => t.id) (s.tareas ++ _))
      rw [List.map_append, List.pairwise_append]
      refine ⟨hsorted, by simp, ?_⟩
      intro a ha' b' hb'
      simp only [List.map_cons, List.map_nil, List.mem_singleton] at hb'
      rw [hb']
      exact hlt a (hsub a ha')
    · intro i hi
      have hi' : i ∈ List.map (fun t => t.id) (s.tareas ++ _) := hi
      rw [List.map_append, List.mem_append] at hi'
      rcases hi' with h1 | h1
      · exact List.mem_append_left _ (hsub i h1)
      · exact List.mem_append_right _ (by simpa using h1)
    · intro u hu
      rcases List.mem_append.mp hu with h1 | h1
      · exact htr u h1
      · rw [List.mem_singleton] at h1
        rw [h1]
        exact ⟨ht, hd⟩
  · have hids : ids (step s r).1 = ids s := by
      rw [hs]
      simp [ids, hl, hid]
    have htr' : ∀ u ∈ (step s r).1.tareas,
        truthy u.titulo = true ∧ truthy u.descripcion = true := by
      rw [hs]
      intro u hu
      have ht0 := htr t (by rw [hl]; simp)
      rcases List.mem_append.mp hu with h1 | h1
      · exact htr u (by rw [hl]; exact List.mem_append_left _ h1)
      · rcases List.mem_cons.mp h1 with h2 | h2
        · rw [h2]
          exact ⟨htt ht0.1, htd ht0.2⟩
        · exact htr u (by rw [hl]; exact List.mem_append_right _ (List.mem_cons_of_mem _ h2))
    have hn : (step s r).1.nextId = s.nextId := by rw [hs]
    rw [ha, List.append_nil]
    exact ⟨hA, by rw [hn]; exact hlt, by rw [hn]; exact hlast, by rw [hids]; exact hsorted,
      by rw [hids]; exact hsub, htr'⟩
  · have hsl : (ids (step s r).1).Sublist (ids s) := by
      rw [hs]
      exact List.Sublist.map _ (List.filter_sublist _)
    have hn : (step s r).1.nextId = s.nextId := by rw [hs]
    rw [ha, List.append_nil]
    refine ⟨hA, by rw [hn]; exact hlt, by rw [hn]; exact hlast, hsorted.sublist hsl,
      fun i hi => hsub i (hsl.subset hi), ?_⟩
    rw [hs]
    intro u hu
    exact htr u (List.mem_of_mem_filter hu)

theorem inv_run (rs : List Req) (A : List Int) (s : Store) (h : Inv A s) :
    Inv (A ++ asignados s rs) (run s rs) := by
  induction rs generalizing A s with
  | nil => simpa [asignados, run] using h
  | cons r rs ih =>
    have := ih (A ++ asignado s r) (step s r).1 (inv_step A s r h)
    simpa [asignados, run, List.append_assoc] using this

/-! ## Claims -/

/-- C1: in every state reached from the seed state by any sequence of requests, the ids
of the tasks in the list are pairwise distinct and each is below `nextId`; the ids handed
out so far (the seed ids 1, 2, 3 and those of all creations, deleted or not) are pairwise
distinct, and the id a further creation hands out is none of them. -/
theorem C1_ids_distinct_never_reused (rs : List Req) :
    (ids (run seed rs)).Nodup ∧
    (∀ t ∈ (run seed rs).tareas, t.id < (run seed rs).nextId) ∧
    ([1, 2, 3] ++ asignados seed rs).Nodup ∧
    (∀ b : Body, truthy b.titulo = true → truthy b.descripcion = true →
      ∃ t : Tarea, (step (run seed rs) (.crear b)).2 = ⟨201, .tarea t⟩ ∧
        t.id ∉ [1, 2, 3] ++ asignados seed rs ∧
        ∀ u ∈ (run seed rs).tareas, u.id ≠ t.id) := by
  obtain ⟨hA, hlt, -, hsorted, hsub, -⟩ := inv_run rs [1, 2, 3] seed inv_seed
  have hmem : ∀ t ∈ (run seed rs).tareas, t.id ∈ [1, 2, 3] ++ asignados seed rs :=
    fun t ht => hsub t.id (List.mem_map_of_mem _ ht)
  refine ⟨hsorted.imp (fun h => ne_of_lt h), fun t ht => hlt _ (hmem t ht),
    hA.imp (fun h => ne_of_lt h), ?_⟩
  intro b ht hd
  refine ⟨{ id := (run seed rs).nextId, titulo := b.titulo, descripcion := b.descripcion,
             estado := orElse b.estado (.str "pendiente"),
             pasos := orElse b.pasos (.arr []) },
    by simp only [step, postTareas_ok _ b ht hd], ?_, ?_⟩
  · intro h
    exact lt_irrefl _ (hlt _ h)
  · intro u hu h
    have := hlt _ (hmem u hu)
    rw [h] at this
    exact lt_irrefl _ this

/-- C2 (what the code does): on the seed state, a creation whose body gives the status
`"PENDIENTE"` is answered 201 and stores that status as given, neither lower-cased nor
checked; and a full update of task 1 with the status `"archivada"` stores `"archivada"`. -/
theorem C2_status_stored_unchecked :
    step seed (.crear ⟨.str "A", .str "B", .str "PENDIENTE", .undefined⟩) =
      ({ tareas := seed.tareas ++
          [{ id := 4, titulo := .str "A", descripcion := .str "B",
             estado := .str "PENDIENTE", pasos := .arr [] }],
         nextId := 5 },
       ⟨201, .tarea { id := 4, titulo := .str "A", descripcion := .str "B",
                      estado := .str "PENDIENTE", pasos := .arr [] }⟩) ∧
    JsVal.str "PENDIENTE" ≠ .str "pendiente" ∧ JsVal.str "PENDIENTE" ≠ .str "completada" ∧
    (step seed (.actualizar (some 1)
        ⟨.undefined, .undefined, .str "archivada", .undefined⟩)).2 =
      ⟨200, .tarea { id := 1, titulo := .str "Configurar Servidor",
                     descripcion := .str "Instalar y levantar Express",
                     estado := .str "archivada",
                     pasos := .arr [.str "npm init", .str "npm install express"] }⟩ := by
  refine ⟨?_, by simp, by simp, ?_⟩
  · rfl
  · rfl

/-- C3 (what the code does): on the seed state, a creation whose title is the empty array
and whose description is the empty object passes the presence check (both are truthy), is
answered 201 and stores the two empty values; and a full update of task 1 whose title is
the empty array is answered 200 and replaces the title with it. -/
theorem C3_empty_title_and_description_stored :
    step seed (.crear ⟨.arr [], .obj [], .undefined, .undefined⟩) =
      ({ tareas := seed.tareas ++
          [{ id := 4, titulo := .arr [], descripcion := .obj [],
             estado := .str "pendiente", pasos := .arr [] }],
         nextId := 5 },
       ⟨201, .tarea { id := 4, titulo := .arr [], descripcion := .obj [],
                      estado := .str "pendiente", pasos := .arr [] }⟩) ∧
    (step seed (.actualizar (some 1) ⟨.arr [], .undefined, .undefined, .undefined⟩)).2 =
      ⟨200, .tarea { id := 1, titulo := .arr [],
                     descripcion := .str "Instalar y levantar Express",
                     estado := .str "completada",
                     pasos := .arr [.str "npm init", .str "npm install express"] }⟩ ∧
    (∃ t ∈ (run seed [.actualizar (some 1)
        ⟨.arr [], .undefined, .undefined, .undefined⟩]).tareas, t.titulo = .arr []) := by
  refine ⟨rfl, rfl, ⟨_, List.mem_cons_self _ _, rfl⟩⟩

/-- What the presence check does guarantee: in every state reached from the seed state,
the title and the description of every task are truthy, so neither is missing, `null` or
the empty string; and a creation whose body has a falsy title or description is rejected
with 400 and stores nothing. -/
theorem titulo_descripcion_truthy (rs : List Req) :
    (∀ t ∈ (run seed rs).tareas,
      (truthy t.titulo = true ∧ t.titulo ≠ .str "" ∧ t.titulo ≠ .undefined ∧
        t.titulo ≠ .null) ∧
      (truthy t.descripcion = true ∧ t.descripcion ≠ .str "" ∧
        t.descripcion ≠ .undefined ∧ t.descripcion ≠ .null)) ∧
    (∀ b : Body, truthy b.titulo = false ∨ truthy b.descripcion = false →
      (step (run seed rs) (.crear b)).1 = run seed rs ∧
      (step (run seed rs) (.crear b)).2.status = 400) := by
  obtain ⟨-, -, -, -, -, htr⟩ := inv_run rs [1, 2, 3] seed inv_seed
  have key : ∀ v : JsVal, truthy v = true → v ≠ .str "" ∧ v ≠ .undefined ∧ v ≠ .null := by
    intro v hv
    refine ⟨?_, ?_, ?_⟩ <;> (intro h; rw [h] at hv; simp [truthy] at hv)
  refine ⟨fun t ht => ⟨⟨(htr t ht).1, key _ (htr t ht).1⟩, ⟨(htr t ht).2, key _ (htr t ht).2⟩⟩, ?_⟩
  intro b hb
  simp only [step, postTareas_rejected _ b hb, and_self]

/-- C4: in every state reached from the seed state, a creation whose body has a truthy
(non-empty) title and description and no status and no steps is answered 201 with the task
made of that title and description, the status `"pendiente"`, no steps and the id `nextId`;
that id is one more than the greatest id handed out so far; the new list is the old one
with the task appended and `nextId` has grown by one. On the seed state the id is 4. -/
theorem C4_create_defaults (rs : List Req) (b : Body) (ht : truthy b.titulo = true)
    (hd : truthy b.descripcion = true) (he : b.estado = .undefined)
    (hp : b.pasos = .undefined) :
    step (run seed rs) (.crear b) =
      ({ tareas := (run seed rs).tareas ++
          [{ id := (run seed rs).nextId, titulo := b.titulo, descripcion := b.descripcion,
             estado := .str "pendiente", pasos := .arr [] }],
         nextId := (run seed rs).nextId + 1 },
       ⟨201, .tarea { id := (run seed rs).nextId, titulo := b.titulo,
                      descripcion := b.descripcion,
                      estado := .str "pendiente", pasos := .arr [] }⟩) ∧
    ((run seed rs).nextId - 1 ∈ [1, 2, 3] ++ asignados seed rs ∧
      ∀ a ∈ [1, 2, 3] ++ asignados seed rs, a ≤ (run seed rs).nextId - 1) ∧
    (run seed []).nextId = 4 := by
  obtain ⟨-, hlt, hlast, -, -, -⟩ := inv_run rs [1, 2, 3] seed inv_seed
  refine ⟨?_, ⟨hlast, fun a ha => by have := hlt a ha; omega⟩, rfl⟩
  simp only [step, postTareas_ok _ b ht hd, he, hp]
  rfl

theorem C4_create_defaults_witness :
    step (run seed []) (.crear ⟨.str "A", .str "B", .undefined, .undefined⟩) =
      ({ tareas := (run seed []).tareas ++
          [{ id := (run seed []).nextId, titulo := .str "A", descripcion := .str "B",
             estado := .str "pendiente", pasos := .arr [] }],
         nextId := (run seed []).nextId + 1 },
       ⟨201, .tarea { id := (run seed []).nextId, titulo := .str "A",
                      descripcion := .str "B",
                      estado := .str "pendiente", pasos := .arr [] }⟩) ∧
    ((run seed []).nextId - 1 ∈ [1, 2, 3] ++ asignados seed [] ∧
      ∀ a ∈ [1, 2, 3] ++ asignados seed [], a ≤ (run seed []).nextId - 1) ∧
    (run seed []).nextId = 4 :=
  C4_create_defaults [] ⟨.str "A", .str "B", .undefined, .undefined⟩
    (by decide) (by decide) rfl rfl

/-- C5: every request answered with an error status (400 or above) leaves the task list
and `nextId` as they were. In particular a creation whose body lacks a (truthy) title or
description is answered 400, and a full update, a status patch or a deletion for an id no
task has is answered 404, each with the state unchanged. -/
theorem C5_errors_keep_store (s : Store) :
    (∀ r : Req, 400 ≤ (step s r).2.status → (step s r).1 = s) ∧
    (∀ b : Body, truthy b.titulo = false ∨ truthy b.descripcion = false →
      step s (.crear b) =
        (s, ⟨400, .mensaje "El título y la descripción son obligatorios."⟩)) ∧
    (∀ (id : Option Int) (b : Body), (∀ u ∈ s.tareas, id ≠ some u.id) →
      step s (.actualizar id b) = (s, ⟨404, .mensaje "Tarea no encontrada"⟩) ∧
      step s (.eliminar id) = (s, ⟨404, .mensaje "Tarea no encontrada"⟩) ∧
      step s (.cambiarEstado id b) = (s, ⟨404, .mensaje "Tarea no encontrada"⟩)) := by
  refine ⟨?_, fun b hb => by simp only [step, postTareas_rejected s b hb], ?_⟩
  · intro r hr
    cases r with
    | listar => rfl
    | porTitulo titulo => simp only [step, getPorTitulo]; split <;> rfl
    | porEstado estado =>
      simp only [step, getPorEstado]
      split
      · rfl
      · split <;> rfl
    | crear b =>
      by_cases ht : truthy b.titulo = true
      · by_cases hd : truthy b.descripcion = true
        · simp [step, postTareas_ok s b ht hd] at hr
        · simp only [Bool.not_eq_true] at hd
          simp only [step, postTareas_rejected s b (Or.inr hd)]
      · simp only [Bool.not_eq_true] at ht
        simp only [step, postTareas_rejected s b (Or.inl ht)]
    | actualizar id b =>
      by_cases h : ∃ t ∈ s.tareas, id = some t.id
      · obtain ⟨t0, ht0, rfl⟩ := h
        obtain ⟨pre, t, post, hs', ht, hpre⟩ :=
          first_with_id s.tareas t0.id ⟨t0, ht0, rfl⟩
        simp [step, putTarea_found s t0.id b pre t post hs' hpre ht] at hr
      · simp only [step]
        rw [putTarea_missing]
        intro u hu hid
        exact h ⟨u, hu, hid⟩
    | cambiarEstado id b =>
      by_cases h : ∃ t ∈ s.tareas, id = some t.id
      · obtain ⟨t0, ht0, rfl⟩ := h
        obtain ⟨pre, t, post, hs', ht, hpre⟩ :=
          first_with_id s.tareas t0.id ⟨t0, ht0, rfl⟩
        have hp := patchEstado_found s t0.id b pre t post hs' hpre ht
        by_cases h1 : truthy b.estado = true
        · cases hl : lowerOf b.estado with
          | none => simp [step, hp, h1, hl]
          | some l =>
            by_cases h2 : l ≠ "pendiente" ∧ l ≠ "completada"
            · simp [step, hp, h1, hl, h2]
            · simp only [step, hp, h1, hl] at hr
              simp [h2] at hr
        · simp [step, hp, h1]
      · simp only [step]
        rw [patchEstado_missing]
        intro u hu hid
        exact h ⟨u, hu, hid⟩
    | eliminar id => exact deleteTarea_error s id hr
  · intro id b h
    refine ⟨?_, ?_, ?_⟩
    · simp only [step, putTarea_missing s id b h, noEncontrada]
    · simp only [step, deleteTarea_missing s id h, noEncontrada]
    · simp only [step, patchEstado_missing s id b h, noEncontrada]

/-- C6: for every store, every id that some task has and every body whose status is
`pendiente` or `completada` in any letter case, the status patch is answered 200 with the
patched task, and the new store is the old one in which the first task with that id has
the lower-cased status: its id, title, description and steps, every other task, the
order and length of the list and `nextId` are as before. -/
theorem C6_patch_changes_only_status (s : Store) (n : Int) (b : Body) (e : String)
    (hn : ∃ t ∈ s.tareas, t.id = n) (hb : b.estado = .str e)
    (he : toLowerCase e = "pendiente" ∨ toLowerCase e = "completada") :
    ∃ pre t post, s.tareas = pre ++ t :: post ∧ t.id = n ∧ (∀ u ∈ pre, u.id ≠ n) ∧
      step s (.cambiarEstado (some n) b) =
        ({ tareas := pre ++
              { id := t.id, titulo := t.titulo, descripcion := t.descripcion,
                estado := .str (toLowerCase e), pasos := t.pasos } :: post,
           nextId := s.nextId },
         ⟨200, .tarea
              { id := t.id, titulo := t.titulo, descripcion := t.descripcion,
                estado := .str (toLowerCase e), pasos := t.pasos }⟩) := by
  obtain ⟨pre, t, post, hs, ht, hpre⟩ := first_with_id s.tareas n hn
  exact ⟨pre, t, post, hs, ht, hpre, patchEstado_ok s n b e pre t post hs hpre ht hb he⟩

theorem C6_patch_changes_only_status_witness :
    ∃ pre t post, seed.tareas = pre ++ t :: post ∧ t.id = 2 ∧ (∀ u ∈ pre, u.id ≠ 2) ∧
      step seed (.cambiarEstado (some 2)
          ⟨.undefined, .undefined, .str "Completada", .undefined⟩) =
        ({ tareas := pre ++
              { id := t.id, titulo := t.titulo, descripcion := t.descripcion,
                estado := .str (toLowerCase "Completada"), pasos := t.pasos } :: post,
           nextId := seed.nextId },
         ⟨200, .tarea
              { id := t.id, titulo := t.titulo, descripcion := t.descripcion,
                estado := .str (toLowerCase "Completada"), pasos := t.pasos }⟩) :=
  C6_patch_changes_only_status seed 2
    ⟨.undefined, .undefined, .str "Completada", .undefined⟩ "Completada"
    ⟨_, List.mem_cons_of_mem _ (List.mem_cons_self _ _), rfl⟩ rfl (Or.inr (by decide))

/-- C7: the status patch is idempotent: for every store, id and body, handling the same
status patch a second time gives the same store and the same response as the first. -/
theorem C7_patch_idempotent (s : Store) (id : Option Int) (b : Body) :
    step (step s (.cambiarEstado id b)).1 (.cambiarEstado id b) =
      step s (.cambiarEstado id b) := by
  by_cases h : ∃ t ∈ s.tareas, id = some t.id
  · obtain ⟨t0, ht0, rfl⟩ := h
    obtain ⟨pre, t, post, hs, ht, hpre⟩ := first_with_id s.tareas t0.id ⟨t0, ht0, rfl⟩
    have hp := patchEstado_found s t0.id b pre t post hs hpre ht
    by_cases h1 : truthy b.estado = true
    · cases hl : lowerOf b.estado with
      | none =>
        have : patchEstado s (some t0.id) b = (s, fallo) := by simp [hp, h1, hl]
        simp only [step, this]
      | some l =>
        by_cases h2 : l ≠ "pendiente" ∧ l ≠ "completada"
        · have : patchEstado s (some t0.id) b =
              (s, ⟨400, .mensaje "El estado debe ser 'pendiente' o 'completada'."⟩) := by
            simp [hp, h1, hl, h2]
          simp only [step, this]
        · have h3 : patchEstado s (some t0.id) b =
              ({ tareas := pre ++ { t with estado := .str l } :: post, nextId := s.nextId },
               ⟨200, .tarea { t with estado := .str l }⟩) := by
            simp only [hp, h1, hl]
            simp [h2]
          have hp' := patchEstado_found
            { tareas := pre ++ { t with estado := .str l } :: post, nextId := s.nextId }
            t0.id b pre { t with estado := .str l } post rfl hpre ht
          have h4 : patchEstado
              { tareas := pre ++ { t with estado := .str l } :: post, nextId := s.nextId }
              (some t0.id) b =
              ({ tareas := pre ++ { t with estado := .str l } :: post, nextId := s.nextId },
               ⟨200, .tarea { t with estado := .str l }⟩) := by
            simp only [hp', h1, hl]
            simp [h2]
          simp only [step, h3, h4]
    · have : patchEstado s (some t0.id) b =
          (s, ⟨400, .mensaje "El estado debe ser 'pendiente' o 'completada'."⟩) := by
        simp [hp, h1]
      simp only [step, this]
  · have : patchEstado s id b = (s, noEncontrada) :=
      patchEstado_missing s id b (fun u hu hid => h ⟨u, hu, hid⟩)
    simp only [step, this]

/-- C8: for every store, every id that some task has and every body, the full update is
answered 200 with the updated task; that task takes the place of the first task with the
id and keeps the id, and each of its title, description, status and steps is the body's
value when that value is truthy and the task's prior value otherwise (absent, empty
string or another falsy value); the other tasks and `nextId` are as before. -/
theorem C8_put_falsy_fallback (s : Store) (n : Int) (b : Body)
    (hn : ∃ t ∈ s.tareas, t.id = n) :
    ∃ pre t post t', s.tareas = pre ++ t :: post ∧ t.id = n ∧ (∀ u ∈ pre, u.id ≠ n) ∧
      step s (.actualizar (some n) b) =
        ({ tareas := pre ++ t' :: post, nextId := s.nextId }, ⟨200, .tarea t'⟩) ∧
      t'.id = n ∧
      t'.titulo = (if truthy b.titulo = true then b.titulo else t.titulo) ∧
      t'.descripcion =
        (if truthy b.descripcion = true then b.descripcion else t.descripcion) ∧
      t'.estado = (if truthy b.estado = true then b.estado else t.estado) ∧
      t'.pasos = (if truthy b.pasos = true then b.pasos else t.pasos) := by
  obtain ⟨pre, t, post, hs, ht, hpre⟩ := first_with_id s.tareas n hn
  exact ⟨pre, t, post,
    { id := n, titulo := orElse b.titulo t.titulo,
      descripcion := orElse b.descripcion t.descripcion,
      estado := orElse b.estado t.estado, pasos := orElse b.pasos t.pasos },
    hs, ht, hpre,
    by simp only [step, putTarea_found s n b pre t post hs hpre ht], rfl, rfl, rfl, rfl, rfl⟩

theorem C8_put_falsy_fallback_witness :
    ∃ pre t post t', seed.tareas = pre ++ t :: post ∧ t.id = 1 ∧ (∀ u ∈ pre, u.id ≠ 1) ∧
      step seed (.actualizar (some 1) ⟨.str "Nuevo", .str "", .undefined, .null⟩) =
        ({ tareas := pre ++ t' :: post, nextId := seed.nextId }, ⟨200, .tarea t'⟩) ∧
      t'.id = 1 ∧
      t'.titulo = (if truthy (.str "Nuevo") = true then .str "Nuevo" else t.titulo) ∧
      t'.descripcion = (if truthy (.str "") = true then .str "" else t.descripcion) ∧
      t'.estado = (if truthy .undefined = true then .undefined else t.estado) ∧
      t'.pasos = (if truthy .null = true then .null else t.pasos) :=
  C8_put_falsy_fallback seed 1 ⟨.str "Nuevo", .str "", .undefined, .null⟩
    ⟨_, List.mem_cons_self _ _, rfl⟩

/-- C9: for every store and every id that some task has, the full update with the empty
body `{}` is answered 200 with the first task that has the id and leaves the whole store
(every task and `nextId`) as it was. -/
theorem C9_put_empty_body (s : Store) (n : Int) (hn : ∃ t ∈ s.tareas, t.id = n) :
    ∃ pre t post, s.tareas = pre ++ t :: post ∧ t.id = n ∧ (∀ u ∈ pre, u.id ≠ n) ∧
      step s (.actualizar (some n) ⟨.undefined, .undefined, .undefined, .undefined⟩) =
        (s, ⟨200, .tarea t⟩) := by
  obtain ⟨pre, t, post, hs, ht, hpre⟩ := first_with_id s.tareas n hn
  refine ⟨pre, t, post, hs, ht, hpre, ?_⟩
  simp only [step, putTarea_found s n _ pre t post hs hpre ht]
  cases s with
  | mk tareas nextId =>
    cases t with
    | mk i ti de es pa =>
      simp only at hs ht
      subst hs ht
      rfl

theorem C9_put_empty_body_witness :
    ∃ pre t post, seed.tareas = pre ++ t :: post ∧ t.id = 3 ∧ (∀ u ∈ pre, u.id ≠ 3) ∧
      step seed (.actualizar (some 3) ⟨.undefined, .undefined, .undefined, .undefined⟩) =
        (seed, ⟨200, .tarea t⟩) :=
  C9_put_empty_body seed 3
    ⟨_, List.mem_cons_of_mem _ (List.mem_cons_of_mem _ (List.mem_cons_self _ _)), rfl⟩

/-- C10: in every state reached from the seed state, deleting an id that some task has is
answered 204 with an empty body; the new list is the old one without that one task, the
others in their order, and `nextId` is as before; deleting the same id again is answered
404. Deleting an id that no task has is answered 404 (and changes nothing). -/
theorem C10_delete (rs : List Req) :
    (∀ n : Int, (∃ t ∈ (run seed rs).tareas, t.id = n) →
      ∃ pre t post, (run seed rs).tareas = pre ++ t :: post ∧ t.id = n ∧
        (∀ u ∈ pre ++ post, u.id ≠ n) ∧
        step (run seed rs) (.eliminar (some n)) =
          ({ tareas := pre ++ post, nextId := (run seed rs).nextId }, ⟨204, .vacio⟩) ∧
        step (step (run seed rs) (.eliminar (some n))).1 (.eliminar (some n)) =
          ({ tareas := pre ++ post, nextId := (run seed rs).nextId },
           ⟨404, .mensaje "Tarea no encontrada"⟩)) ∧
    (∀ id : Option Int, (∀ u ∈ (run seed rs).tareas, id ≠ some u.id) →
      step (run seed rs) (.eliminar id) =
        (run seed rs, ⟨404, .mensaje "Tarea no encontrada"⟩)) := by
  obtain ⟨-, -, -, hsorted, -, -⟩ := inv_run rs [1, 2, 3] seed inv_seed
  refine ⟨?_, fun id h => by simp only [step, deleteTarea_missing _ id h, noEncontrada]⟩
  intro n hn
  obtain ⟨pre, t, post, hs, ht, hpre⟩ := first_with_id _ n hn
  have hpost : ∀ u ∈ post, u.id ≠ n := by
    intro u hu h
    simp only [ids, hs, List.map_append, List.map_cons, List.pairwise_append,
      List.pairwise_cons] at hsorted
    have := hsorted.2.1.1 u.id (List.mem_map_of_mem _ hu)
    rw [ht, h] at this
    exact lt_irrefl _ this
  have hall : ∀ u ∈ pre ++ post, u.id ≠ n := by
    intro u hu
    rcases List.mem_append.mp hu with h | h
    · exact hpre u h
    · exact hpost u h
  have h1 := deleteTarea_unique (run seed rs) n pre t post hs ht hpre hpost
  refine ⟨pre, t, post, hs, ht, hall, by simp only [step, h1], ?_⟩
  simp only [step, h1]
  rw [deleteTarea_missing]
  · rfl
  · intro u hu h
    exact hall u hu (by simpa using h.symm)

/-! ## The read routes -/

theorem filterEstado_strings (b : String) (l : List Tarea)
    (h : ∀ t ∈ l, ∃ e, t.estado = .str e) :
    filterEstado b l = some (l.filter (fun t => decide (lowerOf t.estado = some b))) := by
  induction l with
  | nil => rfl
  | cons t ts ih =>
    obtain ⟨e, he⟩ := h t (List.mem_cons_self _ _)
    have ih' := ih (fun u hu => h u (List.mem_cons_of_mem _ hu))
    have hl : lowerOf t.estado = some (toLowerCase e) := by rw [he]; rfl
    simp only [filterEstado, hl, ih', List.filter_cons, Option.some.injEq]
    by_cases hb : toLowerCase e = b <;> simp [hb]

theorem findTitulo_strings (b : String) (l : List Tarea)
    (h : ∀ t ∈ l, ∃ e, t.titulo = .str e) :
    findTitulo b l = some (l.find? (fun t => decide (lowerOf t.titulo = some b))) := by
  induction l with
  | nil => rfl
  | cons t ts ih =>
    obtain ⟨e, he⟩ := h t (List.mem_cons_self _ _)
    have ih' := ih (fun u hu => h u (List.mem_cons_of_mem _ hu))
    have hl : lowerOf t.titulo = some (toLowerCase e) := by rw [he]; rfl
    simp only [findTitulo, hl, List.find?_cons, Option.some.injEq]
    by_cases hb : toLowerCase e = b
    · simp [hb]
    · simp [hb, ih']

/-- C11: for every store whose statuses are strings and every status path segment, the
filter by status is answered 400 exactly when the lower-cased segment is neither
`pendiente` nor `completada`; otherwise it is answered 200 with, in list order, exactly
the tasks whose lower-cased status is the lower-cased segment; the store is unchanged. -/
theorem C11_filter_by_status (s : Store) (seg : String)
    (hstr : ∀ t ∈ s.tareas, ∃ e, t.estado = .str e) :
    ((step s (.porEstado seg)).2.status = 400 ↔
      (toLowerCase seg ≠ "pendiente" ∧ toLowerCase seg ≠ "completada")) ∧
    (¬ (toLowerCase seg ≠ "pendiente" ∧ toLowerCase seg ≠ "completada") →
      (step s (.porEstado seg)).2 =
        ⟨200, .lista
          (s.tareas.filter (fun t => decide (lowerOf t.estado = some (toLowerCase seg))))⟩) ∧
    (step s (.porEstado seg)).1 = s := by
  have hf := filterEstado_strings (toLowerCase seg) s.tareas hstr
  by_cases hv : toLowerCase seg ≠ "pendiente" ∧ toLowerCase seg ≠ "completada"
  · have : step s (.porEstado seg) =
        (s, ⟨400, .mensaje "Estado no válido. Use 'pendiente' o 'completada'."⟩) := by
      simp only [step, getPorEstado]
      rw [if_pos hv]
    rw [this]
    exact ⟨⟨fun _ => hv, fun _ => rfl⟩, fun h => absurd hv h, rfl⟩
  · have : step s (.porEstado seg) =
        (s, ⟨200, .lista
          (s.tareas.filter (fun t => decide (lowerOf t.estado = some (toLowerCase seg))))⟩) := by
      simp only [step, getPorEstado, hf]
      rw [if_neg hv]
    rw [this]
    refine ⟨⟨fun h => ?_, fun h => absurd h hv⟩, fun _ => rfl, rfl⟩
    simp at h

theorem C11_filter_by_status_witness :
    ((step seed (.porEstado "Pendiente")).2.status = 400 ↔
      (toLowerCase "Pendiente" ≠ "pendiente" ∧ toLowerCase "Pendiente" ≠ "completada")) ∧
    (¬ (toLowerCase "Pendiente" ≠ "pendiente" ∧ toLowerCase "Pendiente" ≠ "completada") →
      (step seed (.porEstado "Pendiente")).2 =
        ⟨200, .lista
          (seed.tareas.filter
            (fun t => decide (lowerOf t.estado = some (toLowerCase "Pendiente"))))⟩) ∧
    (step seed (.porEstado "Pendiente")).1 = seed :=
  C11_filter_by_status seed "Pendiente" (by
    intro t ht
    simp only [seed, List.mem_cons, List.mem_singleton, List.not_mem_nil, or_false] at ht
    rcases ht with rfl | rfl | rfl <;> exact ⟨_, rfl⟩)

/-- C12: for every store whose titles are strings and every title path segment, the
search by title is answered 200 with the first task, in list order, whose lower-cased
title is the lower-cased segment when there is one, and 404 with the message
`Tarea no encontrada` otherwise; the store is unchanged. -/
theorem C12_find_by_title (s : Store) (seg : String)
    (hstr : ∀ t ∈ s.tareas, ∃ e, t.titulo = .str e) :
    step s (.porTitulo seg) =
      (s, match s.tareas.find? (fun t => decide (lowerOf t.titulo = some (toLowerCase seg))) with
          | some t => ⟨200, .tarea t⟩
          | none => ⟨404, .mensaje "Tarea no encontrada"⟩) ∧
    ((∃ t ∈ s.tareas, lowerOf t.titulo = some (toLowerCase seg)) ↔
      (step s (.porTitulo seg)).2.status = 200) := by
  have hf := findTitulo_strings (toLowerCase seg) s.tareas hstr
  have hstep : step s (.porTitulo seg) =
      (s, match s.tareas.find? (fun t => decide (lowerOf t.titulo = some (toLowerCase seg))) with
          | some t => ⟨200, .tarea t⟩
          | none => ⟨404, .mensaje "Tarea no encontrada"⟩) := by
    simp only [step, getPorTitulo, hf]
    cases s.tareas.find? (fun t => decide (lowerOf t.titulo = some (toLowerCase seg))) <;> rfl
  refine ⟨hstep, ?_⟩
  rw [hstep]
  cases hfind : s.tareas.find? (fun t => decide (lowerOf t.titulo = some (toLowerCase seg))) with
  | none =>
    have hnone := List.find?_eq_none.mp hfind
    constructor
    · rintro ⟨t, ht, hl⟩
      exact absurd (by simpa using hl) (hnone t ht)
    · intro h
      simp at h
  | some t =>
    constructor
    · intro _
      rfl
    · intro _
      have hmem := List.mem_of_find?_eq_some hfind
      have hp := List.find?_some hfind
      exact ⟨t, hmem, by simpa using hp⟩

theorem C12_find_by_title_witness :
    step seed (.porTitulo "PROBAR api") =
      (seed, match seed.tareas.find?
            (fun t => decide (lowerOf t.titulo = some (toLowerCase "PROBAR api"))) with
          | some t => ⟨200, .tarea t⟩
          | none => ⟨404, .mensaje "Tarea no encontrada"⟩) ∧
    ((∃ t ∈ seed.tareas, lowerOf t.titulo = some (toLowerCase "PROBAR api")) ↔
      (step seed (.porTitulo "PROBAR api")).2.status = 200) :=
  C12_find_by_title seed "PROBAR api" (by
    intro t ht
    simp only [seed, List.mem_cons, List.mem_singleton, List.not_mem_nil, or_false] at ht
    rcases ht with rfl | rfl | rfl <;> exact ⟨_, rfl⟩)

/-! ## Status codes of the status patch -/

theorem patchEstado_invalid (s : Store) (n : Int) (b : Body) (e : String) (pre : List Tarea)
    (t : Tarea) (post : List Tarea) (hs : s.tareas = pre ++ t :: post)
    (hpre : ∀ u ∈ pre, u.id ≠ n) (ht : t.id = n) (hb : b.estado = .str e)
    (he : toLowerCase e ≠ "pendiente" ∧ toLowerCase e ≠ "completada") :
    patchEstado s (some n) b =
      (s, ⟨400, .mensaje "El estado debe ser 'pendiente' o 'completada'."⟩) := by
  rw [patchEstado_found s n b pre t post hs hpre ht, hb]
  by_cases h0 : e = ""
  · simp [truthy, h0]
  · simp only [truthy, h0, ne_eq, not_false_eq_true, decide_True, Bool.not_true,
      Bool.false_eq_true, if_false, lowerOf]
    rw [if_pos he]

theorem patchEstado_falsy (s : Store) (n : Int) (b : Body) (pre : List Tarea)
    (t : Tarea) (post : List Tarea) (hs : s.tareas = pre ++ t :: post)
    (hpre : ∀ u ∈ pre, u.id ≠ n) (ht : t.id = n) (hb : truthy b.estado = false) :
    patchEstado s (some n) b =
      (s, ⟨400, .mensaje "El estado debe ser 'pendiente' o 'completada'."⟩) := by
  rw [patchEstado_found s n b pre t post hs hpre ht]
  simp [hb]

theorem patchEstado_throws (s : Store) (n : Int) (b : Body) (pre : List Tarea)
    (t : Tarea) (post : List Tarea) (hs : s.tareas = pre ++ t :: post)
    (hpre : ∀ u ∈ pre, u.id ≠ n) (ht : t.id = n) (hb : truthy b.estado = true)
    (hl : lowerOf b.estado = none) :
    patchEstado s (some n) b = (s, fallo) := by
  rw [patchEstado_found s n b pre t post hs hpre ht]
  simp [hb, hl]

/-- C13: for every store, id and body whose status is missing or a string, the status
patch is answered 404 exactly when no task has the id, 400 exactly when some task has the
id and the status is missing, empty or not `pendiente`/`completada` in any letter case,
and 200 exactly in the remaining case (some task has the id and the status is one of the
two words in some letter case). -/
theorem C13_patch_status_codes (s : Store) (id : Option Int) (b : Body)
    (hb : b.estado = .undefined ∨ ∃ e, b.estado = .str e) :
    ((step s (.cambiarEstado id b)).2.status = 404 ↔ ∀ u ∈ s.tareas, id ≠ some u.id) ∧
    ((step s (.cambiarEstado id b)).2.status = 400 ↔
      (∃ u ∈ s.tareas, id = some u.id) ∧
        (b.estado = .undefined ∨ b.estado = .str "" ∨
          ∃ e, b.estado = .str e ∧
            toLowerCase e ≠ "pendiente" ∧ toLowerCase e ≠ "completada")) ∧
    ((step s (.cambiarEstado id b)).2.status = 200 ↔
      (∃ u ∈ s.tareas, id = some u.id) ∧
        ∃ e, b.estado = .str e ∧
          (toLowerCase e = "pendiente" ∨ toLowerCase e = "completada")) := by
  by_cases h : ∃ t ∈ s.tareas, id = some t.id
  · have hno : ¬ ∀ u ∈ s.tareas, id ≠ some u.id := by
      intro hall
      obtain ⟨t, ht, hid⟩ := h
      exact hall t ht hid
    have hex := h
    obtain ⟨t0, ht0, hid0⟩ := h
    subst hid0
    obtain ⟨pre, t, post, hs, ht, hpre⟩ := first_with_id s.tareas t0.id ⟨t0, ht0, rfl⟩
    rcases hb with hu | ⟨e, he⟩
    · have hst : (step s (.cambiarEstado (some t0.id) b)).2.status = 400 := by
        simp only [step]
        rw [patchEstado_falsy s t0.id b pre t post hs hpre ht (by rw [hu]; rfl)]
      rw [hst]
      refine ⟨⟨fun h => by simp at h, fun h => absurd h hno⟩,
        ⟨fun _ => ⟨hex, Or.inl hu⟩, fun _ => rfl⟩, ⟨fun h => by simp at h, ?_⟩⟩
      rintro ⟨-, e, he, -⟩
      rw [hu] at he
      cases he
    · by_cases hv : toLowerCase e = "pendiente" ∨ toLowerCase e = "completada"
      · have hst : (step s (.cambiarEstado (some t0.id) b)).2.status = 200 := by
          simp only [step]
          rw [patchEstado_ok s t0.id b e pre t post hs hpre ht he hv]
        rw [hst]
        refine ⟨⟨fun h => by simp at h, fun h => absurd h hno⟩,
          ⟨fun h => by simp at h, ?_⟩, ⟨fun _ => ⟨hex, e, he, hv⟩, fun _ => rfl⟩⟩
        rintro ⟨-, h1 | h1 | ⟨e', he', h3, h4⟩⟩
        · rw [he] at h1
          cases h1
        · rw [he] at h1
          injection h1 with h1
          rw [h1] at hv
          revert hv
          decide
        · rw [he] at he'
          injection he' with he'
          subst he'
          rcases hv with hv | hv
          · exact absurd hv h3
          · exact absurd hv h4
      · have hv' : toLowerCase e ≠ "pendiente" ∧ toLowerCase e ≠ "completada" :=
          ⟨fun h1 => hv (Or.inl h1), fun h1 => hv (Or.inr h1)⟩
        have hst : (step s (.cambiarEstado (some t0.id) b)).2.status = 400 := by
          simp only [step]
          rw [patchEstado_invalid s t0.id b e pre t post hs hpre ht he hv']
        rw [hst]
        refine ⟨⟨fun h => by simp at h, fun h => absurd h hno⟩,
          ⟨fun _ => ⟨hex, Or.inr (Or.inr ⟨e, he, hv'⟩)⟩, fun _ => rfl⟩,
          ⟨fun h => by simp at h, ?_⟩⟩
        rintro ⟨-, e', he', h3⟩
        rw [he] at he'
        injection he' with he'
        subst he'
        exact absurd h3 hv
  · have hall : ∀ u ∈ s.tareas, id ≠ some u.id := fun u hu hid => h ⟨u, hu, hid⟩
    have hst : (step s (.cambiarEstado id b)).2.status = 404 := by
      simp only [step]
      rw [patchEstado_missing s id b hall]
      rfl
    rw [hst]
    exact ⟨⟨fun _ => hall, fun _ => rfl⟩, ⟨fun h1 => by simp at h1, fun h1 => absurd h1.1 h⟩,
      ⟨fun h1 => by simp at h1, fun h1 => absurd h1.1 h⟩⟩

theorem C13_patch_status_codes_witness :
    ((step seed (.cambiarEstado (some 2) ⟨.undefined, .undefined, .str "hecha", .undefined⟩)).2.status
        = 404 ↔ ∀ u ∈ seed.tareas, some 2 ≠ some u.id) ∧
    ((step seed (.cambiarEstado (some 2) ⟨.undefined, .undefined, .str "hecha", .undefined⟩)).2.status
        = 400 ↔
      (∃ u ∈ seed.tareas, some 2 = some u.id) ∧
        (JsVal.str "hecha" = .undefined ∨ JsVal.str "hecha" = .str "" ∨
          ∃ e, JsVal.str "hecha" = .str e ∧
            toLowerCase e ≠ "pendiente" ∧ toLowerCase e ≠ "completada")) ∧
    ((step seed (.cambiarEstado (some 2) ⟨.undefined, .undefined, .str "hecha", .undefined⟩)).2.status
        = 200 ↔
      (∃ u ∈ seed.tareas, some 2 = some u.id) ∧
        ∃ e, JsVal.str "hecha" = .str e ∧
          (toLowerCase e = "pendiente" ∨ toLowerCase e = "completada")) :=
  C13_patch_status_codes seed (some 2) ⟨.undefined, .undefined, .str "hecha", .undefined⟩
    (Or.inr ⟨"hecha", rfl⟩)

/-- C14: on the seed state, listing is answered 200 with exactly the three seed tasks, in
order, with ids 1, 2 and 3; and the search by title with `configurar servidor` written in
any letter case is answered 200 with the seed task whose id is 1. -/
theorem C14_seed_reads (seg : String) (h : toLowerCase seg = "configurar servidor") :
    step seed .listar = (seed, ⟨200, .lista seed.tareas⟩) ∧
    seed.tareas.length = 3 ∧ ids seed = [1, 2, 3] ∧
    step seed (.porTitulo seg) =
      (seed, ⟨200, .tarea
        { id := 1, titulo := .str "Configurar Servidor",
          descripcion := .str "Instalar y levantar Express",
          estado := .str "completada",
          pasos := .arr [.str "npm init", .str "npm install express"] }⟩) := by
  refine ⟨rfl, rfl, rfl, ?_⟩
  simp only [step, getPorTitulo, h]
  rfl

theorem C14_seed_reads_witness :
    step seed .listar = (seed, ⟨200, .lista seed.tareas⟩) ∧
    seed.tareas.length = 3 ∧ ids seed = [1, 2, 3] ∧
    step seed (.porTitulo "CONFIGURAR servidor") =
      (seed, ⟨200, .tarea
        { id := 1, titulo := .str "Configurar Servidor",
          descripcion := .str "Instalar y levantar Express",
          estado := .str "completada",
          pasos := .arr [.str "npm init", .str "npm install express"] }⟩) :=
  C14_seed_reads "CONFIGURAR servidor" (by decide)

/-- Tasks of a list whose ids are pairwise distinct are equal when their ids are. -/
theorem eq_of_id_eq (l : List Tarea) (hnd : (l.map (fun t => t.id)).Nodup) (t u : Tarea)
    (ht : t ∈ l) (hu : u ∈ l) (h : t.id = u.id) : t = u :=
  List.inj_on_of_nodup_map hnd ht hu h

/-- C15: status transitions are unrestricted: in every state reached from the seed state,
for every task of the list, whatever its status, and each target `pendiente` or
`completada`, the status patch and the full update with that status on the task's id are
both answered 200 with the task carrying the target status, and the new list has that
task, with the target status and otherwise unchanged, in the same place. -/
theorem C15_transitions_unrestricted (rs : List Req) (t : Tarea) (e : String)
    (ht : t ∈ (run seed rs).tareas) (he : e = "pendiente" ∨ e = "completada") :
    ∃ pre post, (run seed rs).tareas = pre ++ t :: post ∧
      step (run seed rs)
          (.cambiarEstado (some t.id) ⟨.undefined, .undefined, .str e, .undefined⟩) =
        ({ tareas := pre ++ { t with estado := .str e } :: post,
           nextId := (run seed rs).nextId },
         ⟨200, .tarea { t with estado := .str e }⟩) ∧
      step (run seed rs)
          (.actualizar (some t.id) ⟨.undefined, .undefined, .str e, .undefined⟩) =
        ({ tareas := pre ++ { t with estado := .str e } :: post,
           nextId := (run seed rs).nextId },
         ⟨200, .tarea { t with estado := .str e }⟩) := by
  obtain ⟨-, -, -, hsorted, -, -⟩ := inv_run rs [1, 2, 3] seed inv_seed
  have hnd : ((run seed rs).tareas.map (fun t => t.id)).Nodup :=
    hsorted.imp (fun h => ne_of_lt h)
  obtain ⟨pre, t', post, hs, hid, hpre⟩ := first_with_id _ t.id ⟨t, ht, rfl⟩
  have ht' : t' = t :=
    eq_of_id_eq _ hnd t' t (by rw [hs]; simp) ht hid
  subst ht'
  have hlow : toLowerCase e = e := by
    rcases he with rfl | rfl <;> decide
  have hval : toLowerCase e = "pendiente" ∨ toLowerCase e = "completada" := by
    rw [hlow]; exact he
  have htr : truthy (.str e) = true := lowerOf_valid_truthy e hval
  refine ⟨pre, post, hs, ?_, ?_⟩
  · simp only [step]
    rw [patchEstado_ok _ t'.id _ e pre t' post hs hpre rfl rfl hval, hlow]
  · simp only [step]
    rw [putTarea_found _ t'.id _ pre t' post hs hpre rfl]
    have hun : truthy .undefined = false := rfl
    simp only [orElse, htr, hun, if_true, Bool.false_eq_true, if_false]

theorem C15_transitions_unrestricted_witness :
    ∃ pre post, (run seed []).tareas = pre ++
        ({ id := 1, titulo := .str "Configurar Servidor",
           descripcion := .str "Instalar y levantar Express",
           estado := .str "completada",
           pasos := .arr [.str "npm init", .str "npm install express"] } : Tarea) :: post ∧
      step (run seed [])
          (.cambiarEstado (some 1) ⟨.undefined, .undefined, .str "pendiente", .undefined⟩) =
        ({ tareas := pre ++
            { id := 1, titulo := .str "Configurar Servidor",
              descripcion := .str "Instalar y levantar Express",
              estado := .str "pendiente",
              pasos := .arr [.str "npm init", .str "npm install express"] } :: post,
           nextId := (run seed []).nextId },
         ⟨200, .tarea
            { id := 1, titulo := .str "Configurar Servidor",
              descripcion := .str "Instalar y levantar Express",
              estado := .str "pendiente",
              pasos := .arr [.str "npm init", .str "npm install express"] }⟩) ∧
      step (run seed [])
          (.actualizar (some 1) ⟨.undefined, .undefined, .str "pendiente", .undefined⟩) =
        ({ tareas := pre ++
            { id := 1, titulo := .str "Configurar Servidor",
              descripcion := .str "Instalar y levantar Express",
              estado := .str "pendiente",
              pasos := .arr [.str "npm init", .str "npm install express"] } :: post,
           nextId := (run seed []).nextId },
         ⟨200, .tarea
            { id := 1, titulo := .str "Configurar Servidor",
              descripcion := .str "Instalar y levantar Express",
              estado := .str "pendiente",
              pasos := .arr [.str "npm init", .str "npm install express"] }⟩) :=
  C15_transitions_unrestricted []
    { id := 1, titulo := .str "Configurar Servidor",
      descripcion := .str "Instalar y levantar Express",
      estado := .str "completada",
      pasos := .arr [.str "npm init", .str "npm install express"] }
    "pendiente" (List.mem_cons_self _ _) (Or.inl rfl)

/-- C16 (what the code does): on the seed state, a status patch of task 1 whose status is
a number, `true`, an array or an object makes the handler throw (the call of
`toLowerCase` on a value that is not a string), so the answer is the 500 of Express and
not 400; the store is unchanged. A `null` status is answered 400. -/
theorem C16_patch_non_string_status_throws :
    step seed (.cambiarEstado (some 1) ⟨.undefined, .undefined, .num 5, .undefined⟩) =
      (seed, ⟨500, .fallo⟩) ∧
    step seed (.cambiarEstado (some 1) ⟨.undefined, .undefined, .bool true, .undefined⟩) =
      (seed, ⟨500, .fallo⟩) ∧
    step seed (.cambiarEstado (some 1) ⟨.undefined, .undefined, .arr [], .undefined⟩) =
      (seed, ⟨500, .fallo⟩) ∧
    step seed (.cambiarEstado (some 1) ⟨.undefined, .undefined, .obj [], .undefined⟩) =
      (seed, ⟨500, .fallo⟩) ∧
    step seed (.cambiarEstado (some 1) ⟨.undefined, .undefined, .null, .undefined⟩) =
      (seed, ⟨400, .mensaje "El estado debe ser 'pendiente' o 'completada'."⟩) := by
  refine ⟨?_, rfl, rfl, rfl, rfl⟩
  exact patchEstado_throws seed 1 ⟨.undefined, .undefined, .num 5, .undefined⟩ [] _ _ rfl
    (by simp) rfl (by simp [truthy]) rfl

/-- C17 (what the code does): after the creation, on the seed state, of a task whose
title is the number 5 and whose status is the number 7 (answered 201), the search by
title and the filter by status throw on that task: both are answered with the 500 of
Express. -/
theorem C17_reads_throw_after_untyped_create :
    (step seed (.crear ⟨.num 5, .str "B", .num 7, .undefined⟩)).2.status = 201 ∧
    (step (run seed [.crear ⟨.num 5, .str "B", .num 7, .undefined⟩]) (.porTitulo "x")).2 =
      ⟨500, .fallo⟩ ∧
    (step (run seed [.crear ⟨.num 5, .str "B", .num 7, .undefined⟩])
        (.porEstado "pendiente")).2 = ⟨500, .fallo⟩ := by
  have ht : truthy (.num 5) = true := by simp [truthy]
  have hd : truthy (.str "B") = true := by decide
  have hrun : run seed [.crear ⟨.num 5, .str "B", .num 7, .undefined⟩] =
      { tareas := seed.tareas ++
          [{ id := 4, titulo := .num 5, descripcion := .str "B",
             estado := orElse (.num 7) (.str "pendiente"),
             pasos := orElse .undefined (.arr []) }],
        nextId := 4 + 1 } := by
    simp only [run, step]
    rw [postTareas_ok seed _ ht hd]
    rfl
  have h7 : orElse (.num 7) (.str "pendiente") = .num 7 := by simp [orElse, truthy]
  refine ⟨?_, ?_, ?_⟩
  · simp only [step]
    rw [postTareas_ok seed _ ht hd]
  · rw [hrun]
    rfl
  · rw [hrun, h7]
    rfl

theorem step_keeps_ids (s : Store) (id : Option Int) (b : Body) :
    ids (step s (.actualizar id b)).1 = ids s ∧
    ids (step s (.cambiarEstado id b)).1 = ids s := by
  constructor
  · rcases step_shape s (.actualizar id b) with ⟨hs, -⟩ | ⟨b', hr, -⟩ |
        ⟨pre, t, post, t', hl, hid, -, -, -, hs⟩ | ⟨id', hr, -⟩
    · rw [hs]
    · cases hr
    · rw [hs]
      simp [ids, hl, hid]
    · cases hr
  · rcases step_shape s (.cambiarEstado id b) with ⟨hs, -⟩ | ⟨b', hr, -⟩ |
        ⟨pre, t, post, t', hl, hid, -, -, -, hs⟩ | ⟨id', hr, -⟩
    · rw [hs]
    · cases hr
    · rw [hs]
      simp [ids, hl, hid]
    · cases hr

/-- C18: in every state reached from the seed state, the ids of the tasks appear in the
list in strictly increasing order. A successful creation appends a task whose id exceeds
every id present; a full update and a status patch keep the sequence of ids (each task
keeps its id and place); a deletion leaves a sublist, the remaining tasks in their
order. -/
theorem C18_ids_increasing (rs : List Req) :
    (ids (run seed rs)).Pairwise (· < ·) ∧
    (∀ b : Body, truthy b.titulo = true → truthy b.descripcion = true →
      ∃ t : Tarea,
        step (run seed rs) (.crear b) =
          ({ tareas := (run seed rs).tareas ++ [t], nextId := (run seed rs).nextId + 1 },
           ⟨201, .tarea t⟩) ∧
        ∀ u ∈ (run seed rs).tareas, u.id < t.id) ∧
    (∀ (id : Option Int) (b : Body),
      ids (step (run seed rs) (.actualizar id b)).1 = ids (run seed rs) ∧
      ids (step (run seed rs) (.cambiarEstado id b)).1 = ids (run seed rs)) ∧
    (∀ id : Option Int,
      List.Sublist (step (run seed rs) (.eliminar id)).1.tareas (run seed rs).tareas) := by
  obtain ⟨-, hlt, -, hsorted, hsub, -⟩ := inv_run rs [1, 2, 3] seed inv_seed
  refine ⟨hsorted, ?_, fun id b => step_keeps_ids _ id b, ?_⟩
  · intro b ht hd
    refine ⟨{ id := (run seed rs).nextId, titulo := b.titulo, descripcion := b.descripcion,
              estado := orElse b.estado (.str "pendiente"),
              pasos := orElse b.pasos (.arr []) },
      by simp only [step, postTareas_ok _ b ht hd], ?_⟩
    intro u hu
    exact hlt _ (hsub u.id (List.mem_map_of_mem _ hu))
  · intro id
    simp only [step, deleteTarea_store]
    exact List.filter_sublist _

/-! ## Lower-casing outside ASCII -/

/-- Sample values of `toLowerCase`: accented Latin letters, Cyrillic, the sharp s and the
Kelvin sign, the two sigmas, and the dotted capital I. -/
theorem toLowerCase_samples :
    toLowerCase "DISEÑO BÁSICO" = "diseño básico" ∧
    toLowerCase "ПРИВЕТ ẞ K" = "привет ß k" ∧
    toLowerCase "ΟΔΟΣ ΣΑΣ" = "οδος σας" ∧
    toLowerCase "İ" = String.mk [Char.ofNat 0x69, Char.ofNat 0x307] ∧
    toLowerCase "Pendiente" = "pendiente" := by
  refine ⟨by decide, by decide, by decide, by decide, by decide⟩

/-- The search by title compares lower-cased titles outside ASCII too: the stored title
`Diseño Básico` is found by the segment `DISEÑO BÁSICO`. -/
theorem getPorTitulo_accented :
    step { tareas := [{ id := 1, titulo := .str "Diseño Básico", descripcion := .str "d",
                        estado := .str "pendiente", pasos := .arr [] }],
           nextId := 2 } (.porTitulo "DISEÑO BÁSICO") =
      ({ tareas := [{ id := 1, titulo := .str "Diseño Básico", descripcion := .str "d",
                      estado := .str "pendiente", pasos := .arr [] }],
         nextId := 2 },
       ⟨200, .tarea { id := 1, titulo := .str "Diseño Básico", descripcion := .str "d",
                      estado := .str "pendiente", pasos := .arr [] }⟩) := by
  rfl

end ApiTareas
